import Mathlib

/-!
Verification development for the StudyMind backend conversation-driven
content orchestration engine (`src/common/services/gen-ai.service.ts`,
`src/modules/chat/chat.service.ts`, `src/database/schemas/library.schema.ts`).

The TypeScript pipeline is embedded shallowly: every LangGraph node becomes a
Lean function over an explicit `PipelineState`, the Postgres table of library
items becomes an explicit `LibraryDB` value, LLM / rendering collaborators
become oracle functions supplied as a record (`withStructuredOutput`
guarantees the oracle output conforms to the zod schema, so each oracle is
typed by the corresponding schema), and observable side effects (generation
calls, storage reads, inserts, downloads, warnings) are recorded in an
explicit effect trace.
-/

namespace StudyMind

/-- The `item_type` enum from `library.schema.ts`. -/
inductive LibraryItemType
  | FOLDER | NOTE | DOCUMENT | FLASHCARD | AUDIO | VIDEO | IMAGE
deriving DecidableEq, Repr

/-- The `MessageType` union from `gen-ai.service.ts`. -/
inductive MessageType
  | CHAT | CREATE | UPDATE | DELETE | READ
deriving DecidableEq, Repr

/-- Chat message role (`USER | ASSISTANT`). -/
inductive Role
  | USER | ASSISTANT
deriving DecidableEq, Repr

/-- The `MessageDto` from `chat.dto.ts`: one conversation turn. -/
structure MessageDto where
  role : Role
  message : String
deriving DecidableEq, Repr

/-- One flashcard question/answer pair (`FlashcardMetadata.cards` element). -/
structure Card where
  question : String
  answer : String
deriving DecidableEq, Repr

/-- A JSON-ish metadata value; only the shapes the engine reads back. -/
inductive JVal
  | str (s : String)
  | num (n : Int)
  | cards (cs : List Card)
deriving DecidableEq, Repr

/-- The loose `jsonb` metadata payload: an open field map.  Later bindings
shadow earlier ones, matching JS object spread `\x7b ...a, ...b \x7d`. -/
abbrev Metadata := List (String × JVal)

/-- Field lookup; the LAST binding of a key wins (JS spread semantics). -/
def mdLookup (md : Metadata) (k : String) : Option JVal :=
  (md.reverse.find? (fun p => p.1 == k)).map (fun p => p.2)

/-- Lookup of a string-valued field. -/
def mdLookupStr (md : Metadata) (k : String) : Option String :=
  match mdLookup md k with
  | some (JVal.str s) => some s
  | _ => none

/-- Merge two field maps, right side overriding (JS `\x7b ...a, ...b \x7d`). -/
def mdMerge (a b : Metadata) : Metadata := a ++ b

/-- A `library_item` row (`library.schema.ts`). -/
structure LibraryItemR where
  id : Nat
  uid : String
  isActive : Bool
  isEmbedded : Bool
  name : String
  type : LibraryItemType
  parentId : Option Int
  userId : Nat
  metadata : Metadata
deriving DecidableEq, Repr

/-- The library table plus its serial id counter. -/
structure LibraryDB where
  nextId : Nat
  rows : List LibraryItemR
deriving DecidableEq, Repr

/-- One entry of `contentCreationQueue` in `StudyMindState`: name, type,
`parentId` (`none` models SQL/JS null), metadata draft and the optional
generation `content` prompt. -/
structure QueueItem where
  name : String
  type : LibraryItemType
  parentId : Option Int
  metadata : Metadata
  content : Option String
deriving DecidableEq, Repr

/-- The `ReferenceCt` from `gen-ai.service.ts`: a resolved mention/created
reference. -/
structure ReferenceCt where
  id : Nat
  uid : String
  name : String
  type : LibraryItemType
  parentId : Option Int
  purpose : String
  content : String
deriving DecidableEq, Repr

/-- The `session` slot of `StudyMindState`. -/
structure SessionInfo where
  uid : String
  title : String
  summary : String
deriving DecidableEq, Repr

/-- The `StudyMindState` — the pipeline state threaded through the graph.
`response` is `Option String` because the TS field starts as `null`. -/
structure PipelineState where
  userId : Nat
  session : SessionInfo
  userMessage : String
  prevMessage : List MessageDto
  prevSummary : String
  messageType : MessageType
  contentCreationQueue : List QueueItem
  currentCreationIndex : Nat
  createdContent : List LibraryItemR
  sessionContext : List ReferenceCt
  mentionContext : List ReferenceCt
  response : Option String
  error : Option String
deriving DecidableEq, Repr

/-- Observable collaborator effects of one pipeline run. -/
inductive Effect
  | llmCall
  | dbSelect (uids : List String)
  | dbInsert (row : LibraryItemR)
  | downloadTool (content name ext : String)
  | downloadFile (url name ext : String)
  | vectorSearch (query uid : String)
  | warn (msg : String)
deriving DecidableEq, Repr

/-! ### Inline marker scanning

`resolveMentions` scans with the regexes `@mention\s*\x7b([^\x7d]+)\x7d` and
`@created\s*\x7b([^\x7d]+)\x7d` (global).  We embed the scan over character
lists: a match is the literal tag, then whitespace, then an opening brace,
then one or more non-closing-brace characters, then a closing brace. -/

/-- The opening brace character. -/
def lbrace : Char := Char.ofNat 123

/-- The closing brace character. -/
def rbrace : Char := Char.ofNat 125

/-- Does `tag` occur literally at the head of `cs`? -/
def matchesTag : List Char → List Char → Bool
  | [], _ => true
  | _ :: _, [] => false
  | t :: ts, c :: cs => t == c && matchesTag ts cs

/-- Length of the leading whitespace run (the `\s*` part). -/
def wsCount : List Char → Nat
  | [] => 0
  | c :: cs => if c.isWhitespace then wsCount cs + 1 else 0

/-- Number of characters before the first closing brace, `none` if the brace
never occurs (the `[^\x7d]+\x7d` part needs the closing brace). -/
def bodyCount : List Char → Option Nat
  | [] => none
  | c :: cs => if c == rbrace then some 0 else (bodyCount cs).map (· + 1)

/-- Try to match one marker at the head of `cs`; returns the number of
characters the whole match consumes.  A match needs a nonempty body. -/
def tryMarker (tag : List Char) (cs : List Char) : Option Nat :=
  if matchesTag tag cs then
    let rest1 := cs.drop tag.length
    let w := wsCount rest1
    match rest1.drop w with
    | c :: rest3 =>
      if c == lbrace then
        match bodyCount rest3 with
        | some b => if b == 0 then none else some (tag.length + w + 1 + b + 1)
        | none => none
      else none
    | [] => none
  else none

/-- Fueled scan counting non-overlapping matches left to right, resuming
after each match like a global regex.  Fuel `l.length` always suffices
because every step consumes at least one character. -/
def scanCountAux (tag : List Char) : Nat → List Char → Nat
  | 0, _ => 0
  | _, [] => 0
  | fuel + 1, c :: cs =>
    match tryMarker tag (c :: cs) with
    | some n => 1 + scanCountAux tag fuel (cs.drop (n - 1))
    | none => scanCountAux tag fuel cs

/-- Number of marker matches in a character list. -/
def scanCount (tag : List Char) (l : List Char) : Nat :=
  scanCountAux tag l.length l

/-- The `@mention` tag characters. -/
def mentionTag : List Char := "@mention".data

/-- The `@created` tag characters. -/
def createdTag : List Char := "@created".data

/-- Matches of `@mention\s*\x7b...\x7d` in a string. -/
def countMention (s : String) : Nat := scanCount mentionTag s.data

/-- Matches of `@created\s*\x7b...\x7d` in a string. -/
def countCreated (s : String) : Nat := scanCount createdTag s.data

/-- Fueled marker stripping: the replacement of
`@mention\s*\x7b...\x7d|@created\s*\x7b...\x7d` by the empty string used in
`generateUserReply`; alternation tries `@mention` first. -/
def stripAux : Nat → List Char → List Char
  | 0, _ => []
  | _, [] => []
  | fuel + 1, c :: cs =>
    match tryMarker mentionTag (c :: cs) with
    | some n => stripAux fuel (cs.drop (n - 1))
    | none =>
      match tryMarker createdTag (c :: cs) with
      | some n => stripAux fuel (cs.drop (n - 1))
      | none => c :: stripAux fuel cs

/-- Strip all inline markers from a string. -/
def stripMarkers (s : String) : String :=
  String.mk (stripAux s.data.length s.data)

/-! ### Structured-output shapes (the zod schemas)

`withStructuredOutput` parses the model response with the schema, so each
generation call is modelled as an oracle whose codomain is exactly the
schema type. -/

/-- One element of `mentionContent` / `createdContent` in
`ResolveMentionSchema`. -/
structure RefRequest where
  uid : String
  needContent : Bool
  purpose : String
deriving DecidableEq, Repr

/-- The `ResolveMentionSchema`. -/
structure ResolveOut where
  mentionContent : List RefRequest
  createdContent : List RefRequest
deriving DecidableEq, Repr

/-- One element of `PlanContentSchema.contentQueue`.  The zod schema types
`type` as a plain string; the planner prompt restricts it to the seven item
types, which the embedding takes as given. -/
structure PlanItem where
  name : String
  type : LibraryItemType
  parentId : Int
deriving DecidableEq, Repr

/-- FOLDER enrichment schema: `color`, `icon`. -/
structure FolderGen where
  color : String
  icon : String
deriving DecidableEq, Repr

/-- NOTE enrichment schema: `description`, `notes`. -/
structure NoteGen where
  description : String
  notes : String
deriving DecidableEq, Repr

/-- DOCUMENT enrichment schema: `description`, `content`. -/
structure DocumentGen where
  description : String
  content : String
deriving DecidableEq, Repr

/-- FLASHCARD enrichment schema: `description`, `cards`, `cardCount`.
The `cards` array is unbounded in the schema (the 5-10 range appears only
in the prompt text). -/
structure FlashcardGen where
  description : String
  cards : List Card
  cardCount : Int
deriving DecidableEq, Repr

/-- AUDIO enrichment schema: `description`, `content`. -/
structure AudioGen where
  description : String
  content : String
deriving DecidableEq, Repr

/-- VIDEO enrichment schema: `description`, `content`. -/
structure VideoGen where
  description : String
  content : String
deriving DecidableEq, Repr

/-- IMAGE enrichment schema: `description`, `fileType`, `resolution`,
`content`. -/
structure ImageGen where
  description : String
  fileType : String
  resolution : String
  content : String
deriving DecidableEq, Repr

/-- The `SummarySchema` of `updateChatSession`: `title`, `summary`. -/
structure SummaryOut where
  title : String
  summary : String
deriving DecidableEq, Repr

/-- External collaborators: every LLM generation call, the download/render
service and the vector search, as total oracle functions (prompt text is a
function of the pipeline state, so each oracle takes the state).  The
download collaborators may fail, returning `Except`. -/
structure Oracles where
  intent : PipelineState → MessageType
  resolveRefs : PipelineState → ResolveOut
  plan : PipelineState → List PlanItem
  enrichFolder : PipelineState → QueueItem → FolderGen
  enrichNote : PipelineState → QueueItem → NoteGen
  enrichDocument : PipelineState → QueueItem → DocumentGen
  enrichFlashcard : PipelineState → QueueItem → FlashcardGen
  enrichAudio : PipelineState → QueueItem → AudioGen
  enrichVideo : PipelineState → QueueItem → VideoGen
  enrichImage : PipelineState → QueueItem → ImageGen
  analyze : PipelineState → String
  chat : PipelineState → String
  replyCreate : PipelineState → String
  summarize : PipelineState → SummaryOut
  genResponse : String → String → String
  downloadTool : String → String → String → Except String Metadata
  downloadFile : String → String → String → Except String Metadata
  vectorSearch : String → String → String

/-! ### Pipeline nodes (`gen-ai.service.ts`) -/

/-- Node result: updated state, updated library table, emitted effects. -/
abbrev NodeResult := PipelineState × LibraryDB × List Effect

/-- The `identifyUserIntent`: one structured generation call classifying the
message; the enum membership failure branch is unreachable because the
schema already restricts the output to the five categories. -/
def identifyUserIntent (o : Oracles) (st : PipelineState) (db : LibraryDB) :
    NodeResult :=
  ({ st with messageType := o.intent st }, db, [Effect.llmCall])

/-- The `select ... from library_item where uid in (...) and is_active`
query of `resolveMentions`.  Note: the source filters by `isActive` only —
there is no owner (`userId`) condition. -/
def selectActiveByUids (db : LibraryDB) (uids : List String) : List LibraryItemR :=
  db.rows.filter (fun r => uids.contains r.uid && r.isActive)

/-- Content fetch dispatch of `putInState` for one resolved reference
(the `needContent` switch over the item type).  The prompt text passed to
`generateResponse` is abbreviated to its data dependencies. -/
def refContent (o : Oracles) (st : PipelineState) (req : RefRequest)
    (itemD : LibraryItemR) : String × List Effect :=
  if req.needContent then
    match itemD.type with
    | LibraryItemType.NOTE =>
      let contexts := (mdLookupStr itemD.metadata "notes").getD ""
      (o.genResponse contexts (req.purpose ++ st.userMessage ++ itemD.name),
        [Effect.llmCall])
    | LibraryItemType.DOCUMENT =>
      let contexts := o.vectorSearch req.purpose itemD.uid
      (o.genResponse contexts (req.purpose ++ st.userMessage ++ itemD.name),
        [Effect.vectorSearch req.purpose itemD.uid, Effect.llmCall])
    | LibraryItemType.FLASHCARD =>
      let contexts :=
        match mdLookup itemD.metadata "cards" with
        | some (JVal.cards cs) =>
          if cs.length == 0 then ""
          else String.intercalate "\n"
            (cs.map (fun c => "- " ++ c.question ++ ": " ++ c.answer))
        | _ => ""
      (o.genResponse contexts (req.purpose ++ st.userMessage ++ itemD.name),
        [Effect.llmCall])
    | LibraryItemType.AUDIO =>
      ("Audio content processing not implemented yet", [])
    | LibraryItemType.VIDEO =>
      ("Video content processing not implemented yet", [])
    | LibraryItemType.IMAGE =>
      ("Image content processing not implemented yet", [])
    | LibraryItemType.FOLDER => ("", [])
  else ("", [])

/-- The `putInState`: for each requested reference, look it up in the fetched
rows; a missing row is skipped with a warning and the loop continues. -/
def putInState (o : Oracles) (st : PipelineState) :
    List RefRequest → List LibraryItemR → List ReferenceCt × List Effect
  | [], _ => ([], [])
  | req :: rest, itemData =>
    match itemData.find? (fun d => d.uid == req.uid) with
    | none =>
      let r := putInState o st rest itemData
      (r.1, Effect.warn ("Content not found for uid: " ++ req.uid) :: r.2)
    | some itemD =>
      let ce := refContent o st req itemD
      let r := putInState o st rest itemData
      ({ id := itemD.id, uid := itemD.uid, name := itemD.name,
         type := itemD.type, parentId := itemD.parentId,
         purpose := req.purpose, content := ce.1 } :: r.1,
       ce.2 ++ r.2)

/-- The `resolveMentions`: short-circuits when the current message has no
`@mention` marker and no prior turn has an `@created` marker; otherwise one
structured generation call, one storage read (active items by uid, no owner
filter) and `putInState` for both reference lists. -/
def resolveMentions (o : Oracles) (st : PipelineState) (db : LibraryDB) :
    NodeResult :=
  if countMention st.userMessage = 0 ∧
      (st.prevMessage.map (fun m => countCreated m.message)).sum = 0 then
    (st, db, [])
  else
    let response := o.resolveRefs st
    if response.mentionContent.length = 0 ∧ response.createdContent.length = 0 then
      (st, db, [Effect.llmCall])
    else
      let itemsUid := (response.mentionContent ++ response.createdContent).map
        (fun i => i.uid)
      let itemData := selectActiveByUids db itemsUid
      let mC := putInState o st response.mentionContent itemData
      let sC := putInState o st response.createdContent itemData
      ({ st with mentionContext := mC.1, sessionContext := sC.1 }, db,
       Effect.llmCall :: Effect.dbSelect itemsUid :: (mC.2 ++ sC.2))

/-- The `planContentQueue`: one structured generation call; an empty planned
queue is a request failure.  The planned items enter the queue with raw
numeric `parentId` (sentinels still present), empty metadata, no content. -/
def planContentQueue (o : Oracles) (st : PipelineState) (db : LibraryDB) :
    Except String NodeResult :=
  let queue := o.plan st
  if queue.length = 0 then
    Except.error "Failed to plan content structure"
  else
    Except.ok
      ({ st with
          contentCreationQueue := queue.map (fun p =>
            { name := p.name, type := p.type, parentId := some p.parentId,
              metadata := [], content := none }),
          currentCreationIndex := 0 }, db, [Effect.llmCall])

/-- Per-item enrichment step of `createContentQueue`: one structured call
whose schema depends on the item type; the response is destructured as
`const (content, ...metadata) = response`, the `parentId` sentinel `0` is
normalized to null, and a falsy (empty) `content` adds no content field. -/
def enrichOne (o : Oracles) (st : PipelineState) (item : QueueItem) : QueueItem :=
  let p : Metadata × Option String :=
    match item.type with
    | LibraryItemType.FOLDER =>
      let g := o.enrichFolder st item
      ([("color", JVal.str g.color), ("icon", JVal.str g.icon)], none)
    | LibraryItemType.NOTE =>
      let g := o.enrichNote st item
      ([("description", JVal.str g.description), ("notes", JVal.str g.notes)],
       none)
    | LibraryItemType.DOCUMENT =>
      let g := o.enrichDocument st item
      ([("description", JVal.str g.description)],
       if g.content == "" then none else some g.content)
    | LibraryItemType.FLASHCARD =>
      let g := o.enrichFlashcard st item
      ([("description", JVal.str g.description), ("cards", JVal.cards g.cards),
        ("cardCount", JVal.num g.cardCount)], none)
    | LibraryItemType.AUDIO =>
      let g := o.enrichAudio st item
      ([("description", JVal.str g.description)],
       if g.content == "" then none else some g.content)
    | LibraryItemType.VIDEO =>
      let g := o.enrichVideo st item
      ([("description", JVal.str g.description)],
       if g.content == "" then none else some g.content)
    | LibraryItemType.IMAGE =>
      let g := o.enrichImage st item
      ([("description", JVal.str g.description),
        ("fileType", JVal.str g.fileType),
        ("resolution", JVal.str g.resolution)],
       if g.content == "" then none else some g.content)
  { item with
    parentId := if item.parentId != some 0 then item.parentId else none,
    metadata := p.1,
    content := p.2 }

/-- The `createContentQueue`: enrich every queued item in order (one generation
call each); queue length and order are preserved. -/
def createContentQueue (o : Oracles) (st : PipelineState) (db : LibraryDB) :
    NodeResult :=
  ({ st with
      contentCreationQueue := st.contentCreationQueue.map (enrichOne o st) },
   db, st.contentCreationQueue.map (fun _ => Effect.llmCall))

/-- JS `String.prototype.split` with a one-character separator, over the
character list: `"".split(c)` is `[""]`, a trailing separator yields a
trailing empty part. -/
def splitChar (sep : Char) : List Char → List (List Char)
  | [] => [[]]
  | c :: cs =>
    let r := splitChar sep cs
    if c == sep then [] :: r
    else
      match r with
      | [] => [[c]]
      | h :: t => (c :: h) :: t

/-- The `resolution.split(\x27x\x27)` of the IMAGE branch. -/
def splitOnX (r : String) : List String :=
  (splitChar (Char.ofNat 120) r.data).map (fun l => String.mk l)

/-- The width/height parse of the IMAGE branch of `createOneContent`:
`resolution?.split(\x27x\x27)` followed by
`resolution.length === 2 ? resolution[0] : \x271024\x27` (and `[1]` for the
height).  An absent resolution or a split with other than exactly two parts
falls back to 1024; a two-part split is used verbatim. -/
def imageDims (md : Metadata) : String × String :=
  match mdLookupStr md "resolution" with
  | none => ("1024", "1024")
  | some r =>
    match splitOnX r with
    | [w, h] => (w, h)
    | _ => ("1024", "1024")

/-- The pollinations image URL built in the IMAGE branch. -/
def imageUrl (content width height : String) : String :=
  "https://image.pollinations.ai/prompt/" ++ content ++
    "?width=" ++ width ++ "&height=" ++ height

/-- The per-type external rendering prefix of `createOneContent` (the
`if/else` chain on `currentContent?.type`).  `cc?` is the queue entry at the
cursor; optional chaining makes a missing entry take none of the branches.
VIDEO throws `Currently not supported` here. -/
def renderExternal (o : Oracles) (cc? : Option QueueItem) :
    Except String (Metadata × List Effect) :=
  match cc? with
  | none => Except.ok ([], [])
  | some cc =>
    match cc.type with
    | LibraryItemType.DOCUMENT =>
      match o.downloadTool (cc.content.getD "") cc.name "pdf" with
      | Except.ok m =>
        Except.ok (m, [Effect.downloadTool (cc.content.getD "") cc.name "pdf"])
      | Except.error e => Except.error e
    | LibraryItemType.AUDIO =>
      match o.downloadTool (cc.content.getD "") cc.name "mp3" with
      | Except.ok m =>
        Except.ok (m, [Effect.downloadTool (cc.content.getD "") cc.name "mp3"])
      | Except.error e => Except.error e
    | LibraryItemType.VIDEO => Except.error "Currently not supported"
    | LibraryItemType.IMAGE =>
      let dims := imageDims cc.metadata
      let url := imageUrl (cc.content.getD "") dims.1 dims.2
      match o.downloadFile url cc.name "png" with
      | Except.ok m => Except.ok (m, [Effect.downloadFile url cc.name "png"])
      | Except.error e => Except.error e
    | _ => Except.ok ([], [])

/-- The parent sentinel substitution inside the insert of
`createOneContent`: `parentId === -1 ?
createdContent[createdContent.length - 1].id : parentId`.  On an empty
materialized list the index expression reads `id` of `undefined`, which
throws. -/
def resolveParent (createdContent : List LibraryItemR) (pid : Option Int) :
    Except String (Option Int) :=
  if pid = some (-1) then
    match createdContent.getLast? with
    | some lastItem => Except.ok (some (Int.ofNat lastItem.id))
    | none => Except.error "TypeError: cannot read id of undefined"
  else Except.ok pid

/-- The row handed to the insert in `createOneContent`.  `isEmbedded` is the
ternary on membership in DOCUMENT/AUDIO/VIDEO/IMAGE; metadata is the spread
merge of the queue item metadata and the rendering metadata; the store
assigns the serial id and a fresh (nonempty) uid. -/
def mkRow (st : PipelineState) (db : LibraryDB) (cc : QueueItem)
    (pid : Option Int) (extMeta : Metadata) : LibraryItemR :=
  { id := db.nextId,
    uid := "uid-" ++ toString db.nextId,
    isActive := true,
    isEmbedded :=
      if [LibraryItemType.DOCUMENT, LibraryItemType.AUDIO,
          LibraryItemType.VIDEO, LibraryItemType.IMAGE].contains cc.type
      then false else true,
    name := cc.name,
    type := cc.type,
    parentId := pid,
    userId := st.userId,
    metadata := mdMerge cc.metadata extMeta }

/-- The `try` body of `createOneContent`: external rendering, parent
sentinel resolution, one insert, cursor advance and append.  The returned
uid is never empty, so the `!createdItem[0].uid` guard cannot fire. -/
def createOneContentBody (o : Oracles) (st : PipelineState) (db : LibraryDB) :
    Except String NodeResult :=
  let cc? := st.contentCreationQueue[st.currentCreationIndex]?
  match renderExternal o cc? with
  | Except.error e => Except.error e
  | Except.ok (extMeta, effs1) =>
    match cc? with
    | none => Except.error "TypeError: currentContent is undefined"
    | some cc =>
      match resolveParent st.createdContent cc.parentId with
      | Except.error e => Except.error e
      | Except.ok pid =>
        let row := mkRow st db cc pid extMeta
        Except.ok
          ({ st with
              currentCreationIndex := st.currentCreationIndex + 1,
              createdContent := st.createdContent ++ [row] },
           { nextId := db.nextId + 1, rows := db.rows ++ [row] },
           effs1 ++ [Effect.dbInsert row])

/-- The `createOneContent` with its `catch`: any failure inside the body is
re-thrown as the generic `Failed to create content`. -/
def createOneContent (o : Oracles) (st : PipelineState) (db : LibraryDB) :
    Except String NodeResult :=
  match createOneContentBody o st db with
  | Except.ok r => Except.ok r
  | Except.error _ => Except.error "Failed to create content"

/-- The `analyzeContent`: one generation call; an empty response text fails. -/
def analyzeContent (o : Oracles) (st : PipelineState) (db : LibraryDB) :
    Except String NodeResult :=
  let text := o.analyze st
  if text = "" then Except.error "Failed to analyze content"
  else Except.ok ({ st with response := some text }, db, [Effect.llmCall])

/-- The `contextualChat`: one generation call; an empty response text fails. -/
def contextualChat (o : Oracles) (st : PipelineState) (db : LibraryDB) :
    Except String NodeResult :=
  let text := o.chat st
  if text = "" then Except.error "Failed to generate user reply"
  else Except.ok ({ st with response := some text }, db, [Effect.llmCall])

/-- The fixed UPDATE/DELETE reply of `generateUserReply`. -/
def fixedUnsupportedMsg : String :=
  "Sorry, update and delete operations are not supported yet. We\x27re working to bring this feature soon!"

/-- The `generateUserReply`: READ/CHAT pass through (response already set);
UPDATE/DELETE get the fixed message with no generation call; CREATE makes
one generation call and strips inline markers from the text. -/
def generateUserReply (o : Oracles) (st : PipelineState) (db : LibraryDB) :
    NodeResult :=
  match st.messageType with
  | MessageType.READ => (st, db, [])
  | MessageType.CHAT => (st, db, [])
  | MessageType.UPDATE =>
    ({ st with response := some fixedUnsupportedMsg }, db, [])
  | MessageType.DELETE =>
    ({ st with response := some fixedUnsupportedMsg }, db, [])
  | MessageType.CREATE =>
    let text := o.replyCreate st
    ({ st with response := some (stripMarkers text) }, db, [Effect.llmCall])

/-- The `@created` marker appended per created item by `updateChatSession`
(`JSON.stringify(\x7b ...content, metadata: null \x7d)`; the serialization
is abbreviated to the fields any later parse reads back). -/
def mkCreatedMarker (it : LibraryItemR) : String :=
  "@created \x7b\x22uid\x22: \x22" ++ it.uid ++ "\x22, \x22name\x22: \x22" ++
    it.name ++ "\x22\x7d"

/-- The `updateChatSession`: one structured generation call for title+summary
(empty title or summary fails), then the response gains one `@created`
marker line per created item. -/
def updateChatSession (o : Oracles) (st : PipelineState) (db : LibraryDB) :
    Except String NodeResult :=
  let out := o.summarize st
  if out.title = "" ∨ out.summary = "" then
    Except.error "Failed to update chat session "
  else
    Except.ok
      ({ st with
          session := { st.session with title := out.title, summary := out.summary },
          response := some ((st.response.getD "null") ++ "\n" ++
            String.intercalate "\n" (st.createdContent.map mkCreatedMarker)) },
       db, [Effect.llmCall])

/-! ### The orchestration graph (`buildGraph`) -/

/-- The graph nodes of `buildGraph`. -/
inductive Node
  | identifyUserIntent
  | resolveMentions
  | planContentQueue
  | createContentQueue
  | createOneContent
  | checkCreationProcess
  | analyzeContent
  | contextualChat
  | generateUserReply
  | updateChatSession
deriving DecidableEq, Repr

/-- The `routeAfterRefs`: the conditional edges out of `identifyUserIntent`. -/
def routeAfterRefs (st : PipelineState) : Node :=
  match st.messageType with
  | MessageType.CHAT => Node.contextualChat
  | MessageType.CREATE => Node.resolveMentions
  | MessageType.UPDATE => Node.generateUserReply
  | MessageType.DELETE => Node.generateUserReply
  | MessageType.READ => Node.resolveMentions

/-- The `routeAfterContext`: the conditional edges out of `resolveMentions`;
only CREATE and READ are mapped (the node is unreachable otherwise). -/
def routeAfterContext (st : PipelineState) : Except String Node :=
  match st.messageType with
  | MessageType.CREATE => Except.ok Node.planContentQueue
  | MessageType.READ => Except.ok Node.analyzeContent
  | _ => Except.error "Unknown branch"

/-- The `routeContentProgress`: CONTINUE while the cursor is below the queue
length, COMPLETE otherwise. -/
def routeContentProgress (st : PipelineState) : Node :=
  if st.currentCreationIndex < st.contentCreationQueue.length
  then Node.createOneContent else Node.generateUserReply

/-- The edge relation of `buildGraph`; `none` is END. -/
def nextNode (n : Node) (st : PipelineState) : Except String (Option Node) :=
  match n with
  | Node.identifyUserIntent => Except.ok (some (routeAfterRefs st))
  | Node.resolveMentions => (routeAfterContext st).map some
  | Node.planContentQueue => Except.ok (some Node.createContentQueue)
  | Node.createContentQueue => Except.ok (some Node.createOneContent)
  | Node.createOneContent => Except.ok (some Node.checkCreationProcess)
  | Node.checkCreationProcess => Except.ok (some (routeContentProgress st))
  | Node.contextualChat => Except.ok (some Node.generateUserReply)
  | Node.analyzeContent => Except.ok (some Node.generateUserReply)
  | Node.generateUserReply => Except.ok (some Node.updateChatSession)
  | Node.updateChatSession => Except.ok none

/-- Execute one node (`checkCreationProcess` is the identity). -/
def stepNode (o : Oracles) : Node → PipelineState → LibraryDB →
    Except String NodeResult
  | Node.identifyUserIntent, st, db => Except.ok (identifyUserIntent o st db)
  | Node.resolveMentions, st, db => Except.ok (resolveMentions o st db)
  | Node.planContentQueue, st, db => planContentQueue o st db
  | Node.createContentQueue, st, db => Except.ok (createContentQueue o st db)
  | Node.createOneContent, st, db => createOneContent o st db
  | Node.checkCreationProcess, st, db => Except.ok (st, db, [])
  | Node.analyzeContent, st, db => analyzeContent o st db
  | Node.contextualChat, st, db => contextualChat o st db
  | Node.generateUserReply, st, db => Except.ok (generateUserReply o st db)
  | Node.updateChatSession, st, db => updateChatSession o st db

/-- Run the graph from a node, following the edges until END; the fuel
models the graph runtime recursion limit.  Returns the final state, the
library table, the effect trace and the list of visited nodes. -/
def runNodes (o : Oracles) :
    Nat → Node → PipelineState → LibraryDB →
    Except String (PipelineState × LibraryDB × List Effect × List Node)
  | 0, _, _, _ => Except.error "GraphRecursionError"
  | fuel + 1, n, st, db =>
    match stepNode o n st db with
    | Except.error e => Except.error e
    | Except.ok (st1, db1, effs) =>
      match nextNode n st1 with
      | Except.error e => Except.error e
      | Except.ok none => Except.ok (st1, db1, effs, [n])
      | Except.ok (some n2) =>
        match runNodes o fuel n2 st1 db1 with
        | Except.error e => Except.error e
        | Except.ok (st2, db2, effs2, ns) =>
          Except.ok (st2, db2, effs ++ effs2, n :: ns)

/-- The initial `StudyMindState` built by `generateGraphResponses`; an empty
message list makes `chatMessage[chatMessage.length - 1]` undefined. -/
def initialState (userId : Nat) (sessionUid : String) (chatSummary : String)
    (chatMessage : List MessageDto) : Option PipelineState :=
  match chatMessage.getLast? with
  | none => none
  | some lastMsg =>
    some
      { userId := userId,
        session := { uid := sessionUid, title := "", summary := "" },
        userMessage := lastMsg.message,
        prevMessage := chatMessage.dropLast,
        prevSummary := chatSummary,
        messageType := MessageType.CHAT,
        contentCreationQueue := [],
        currentCreationIndex := 0,
        createdContent := [],
        sessionContext := [],
        mentionContext := [],
        response := none,
        error := none }

/-- The `generateGraphResponses`: build the initial state, invoke the graph,
and re-throw any failure as the generic `Failed to generate response`. -/
def generateGraphResponses (o : Oracles) (fuel : Nat) (userId : Nat)
    (sessionUid : String) (chatSummary : String) (chatMessage : List MessageDto)
    (db : LibraryDB) :
    Except String (PipelineState × LibraryDB × List Effect × List Node) :=
  match initialState userId sessionUid chatSummary chatMessage with
  | none => Except.error "Failed to generate response"
  | some st0 =>
    match runNodes o fuel Node.identifyUserIntent st0 db with
    | Except.error _ => Except.error "Failed to generate response"
    | Except.ok r => Except.ok r

/-! ### `requestQuery` (`chat.service.ts`) and its transaction -/

/-- A `chat_sessions` row (the fields `requestQuery` writes). -/
structure ChatSessionRow where
  id : Nat
  uid : String
  userId : Nat
  title : String
  lastMessage : String
deriving DecidableEq, Repr

/-- A `chat_messages` row. -/
structure ChatMessageRow where
  role : Role
  chatSessionId : Nat
  message : String
deriving DecidableEq, Repr

/-- The durable store the request-scoped transaction covers: the library
table plus the chat tables. -/
structure Store where
  lib : LibraryDB
  sessions : List ChatSessionRow
  messages : List ChatMessageRow
deriving DecidableEq, Repr

/-- The create-or-update-by-uid upsert (`onConflictDoUpdate` on
`chatSessions.uid`): conflict updates the last message, otherwise a new row
is appended.  Returns the affected row and the new table. -/
def upsertSession (sessions : List ChatSessionRow) (row : ChatSessionRow) :
    ChatSessionRow × List ChatSessionRow :=
  match sessions.find? (fun s => s.uid == row.uid) with
  | some existing =>
    ({ existing with lastMessage := row.lastMessage },
     sessions.map (fun s =>
       if s.uid == row.uid then { s with lastMessage := row.lastMessage } else s))
  | none => (row, sessions ++ [row])

/-- What `requestQuery` returns on success. -/
structure RequestResult where
  sessionRow : ChatSessionRow
  assistantMessage : ChatMessageRow
  isCreatedItem : Bool
deriving DecidableEq, Repr

/-- The body of the `db.transaction` callback in `requestQuery`: run the
graph, require a nonempty response, upsert the session, insert the user and
assistant turns.  (One repository variant omits the summary argument at
this call site; the model threads it per the primary service signature.) -/
def requestQueryTx (o : Oracles) (fuel : Nat) (uid : String)
    (chatSummary : String) (msgs : List MessageDto) (userId : Nat)
    (store : Store) : Except String (RequestResult × Store) :=
  match msgs.getLast? with
  | none => Except.error "TypeError: currMessage is undefined"
  | some currMessage =>
    match generateGraphResponses o fuel userId uid chatSummary msgs store.lib with
    | Except.error e => Except.error e
    | Except.ok (stF, lib1, _effs, _ns) =>
      match stF.response with
      | none => Except.error "Please provide more specific instructions. Thank you"
      | some resp =>
        if resp = "" then
          Except.error "Please provide more specific instructions. Thank you"
        else
          let (sessionRow, sessions1) := upsertSession store.sessions
            { id := store.sessions.length, uid := uid, userId := userId,
              title := stF.session.title, lastMessage := currMessage.message }
          let userRow : ChatMessageRow :=
            { role := currMessage.role, chatSessionId := sessionRow.id,
              message := currMessage.message }
          let assistantRow : ChatMessageRow :=
            { role := Role.ASSISTANT, chatSessionId := sessionRow.id,
              message := resp }
          Except.ok
            ({ sessionRow := sessionRow, assistantMessage := assistantRow,
               isCreatedItem := stF.createdContent.length != 0 },
             { lib := lib1, sessions := sessions1,
               messages := store.messages ++ [userRow, assistantRow] })

/-- The `requestQuery` wraps the whole run in one database transaction: any
failure rolls every write of this run back, leaving the store unchanged. -/
def requestQuery (o : Oracles) (fuel : Nat) (uid : String)
    (chatSummary : String) (msgs : List MessageDto) (userId : Nat)
    (store : Store) : Except String RequestResult × Store :=
  match requestQueryTx o fuel uid chatSummary msgs userId store with
  | Except.ok (r, store1) => (Except.ok r, store1)
  | Except.error e => (Except.error e, store)

/-! ### Concrete fixtures

Closed oracle instantiations and inputs used to evaluate the embedding on
concrete runs. -/

/-- A benign oracle: CREATE intent, a one-folder plan, schema-conforming
enrichment outputs, successful downloads. -/
def oBase : Oracles :=
  { intent := fun _ => MessageType.CREATE,
    resolveRefs := fun _ => { mentionContent := [], createdContent := [] },
    plan := fun _ =>
      [{ name := "Biology", type := LibraryItemType.FOLDER, parentId := 0 }],
    enrichFolder := fun _ _ => { color := "#00FF00", icon := "folder" },
    enrichNote := fun _ _ => { description := "d", notes := "n" },
    enrichDocument := fun _ _ => { description := "d", content := "body" },
    enrichFlashcard := fun _ _ =>
      { description := "d", cards := [{ question := "q", answer := "a" }],
        cardCount := 1 },
    enrichAudio := fun _ _ => { description := "d", content := "script" },
    enrichVideo := fun _ _ => { description := "d", content := "script" },
    enrichImage := fun _ _ =>
      { description := "d", fileType := "png", resolution := "800x600",
        content := "pic" },
    analyze := fun _ => "analysis",
    chat := fun _ => "chatreply",
    replyCreate := fun _ => "Created! Click here to view",
    summarize := fun _ => { title := "T", summary := "S" },
    genResponse := fun _ _ => "gen",
    downloadTool := fun _ _ _ => Except.ok [("fileUrl", JVal.str "u")],
    downloadFile := fun _ _ _ => Except.ok [("fileUrl", JVal.str "u")],
    vectorSearch := fun _ _ => "ctx" }

/-- The oracle of a VIDEO creation request. -/
def oVideo : Oracles :=
  { oBase with plan := fun _ =>
      [{ name := "Vid", type := LibraryItemType.VIDEO, parentId := 0 }] }

/-- The oracle of an UPDATE-classified request. -/
def oUpd : Oracles :=
  { oBase with intent := fun _ => MessageType.UPDATE }

/-- An oracle whose flashcard enrichment returns eleven cards (the schema
does not bound the array). -/
def oFlash : Oracles :=
  { oBase with
    plan := fun _ =>
      [{ name := "Cards", type := LibraryItemType.FLASHCARD, parentId := 0 }],
    enrichFlashcard := fun _ _ =>
      { description := "d",
        cards := List.replicate 11 { question := "q", answer := "a" },
        cardCount := 11 } }

/-- An oracle resolving one mention reference with uid `x`. -/
def oMention : Oracles :=
  { oBase with resolveRefs := fun _ =>
      { mentionContent := [{ uid := "x", needContent := false, purpose := "p" }],
        createdContent := [] } }

/-- Initial pipeline state of a one-message CREATE conversation. -/
def stW : PipelineState :=
  { userId := 7, session := { uid := "sess", title := "", summary := "" },
    userMessage := "create a folder called Biology", prevMessage := [],
    prevSummary := "", messageType := MessageType.CHAT,
    contentCreationQueue := [], currentCreationIndex := 0,
    createdContent := [], sessionContext := [], mentionContext := [],
    response := none, error := none }

/-- An empty library table. -/
def dbW : LibraryDB := { nextId := 1, rows := [] }

/-- An empty durable store. -/
def storeW : Store := { lib := dbW, sessions := [], messages := [] }

/-- The one-message conversation. -/
def msgsW : List MessageDto :=
  [{ role := Role.USER, message := "create a folder called Biology" }]

/-- A previously materialized folder row. -/
def rowPrev : LibraryItemR :=
  { id := 5, uid := "uid-5", isActive := true, isEmbedded := true,
    name := "Parent", type := LibraryItemType.FOLDER, parentId := none,
    userId := 7, metadata := [] }

/-- An enriched NOTE queue item carrying the `-1` parent sentinel. -/
def itemNote : QueueItem :=
  { name := "Note1", type := LibraryItemType.NOTE, parentId := some (-1),
    metadata := [("description", JVal.str "d"), ("notes", JVal.str "n")],
    content := none }

/-- Mid-loop state: the NOTE item at the cursor, one folder materialized. -/
def stStep : PipelineState :=
  { stW with
    messageType := MessageType.CREATE,
    contentCreationQueue := [itemNote], currentCreationIndex := 0,
    createdContent := [rowPrev] }

/-- The same state with an empty materialized list. -/
def stStepEmpty : PipelineState := { stStep with createdContent := [] }

/-- An enriched VIDEO queue item. -/
def itemVid : QueueItem :=
  { name := "Vid", type := LibraryItemType.VIDEO, parentId := none,
    metadata := [("description", JVal.str "d")], content := some "script" }

/-- A state about to materialize the VIDEO item. -/
def stVid : PipelineState :=
  { stW with
    messageType := MessageType.CREATE,
    contentCreationQueue := [itemVid], currentCreationIndex := 0 }

/-- An enriched FOLDER queue item. -/
def itemFolder : QueueItem :=
  { name := "Biology", type := LibraryItemType.FOLDER, parentId := none,
    metadata := [("color", JVal.str "#00FF00"), ("icon", JVal.str "folder")],
    content := none }

/-- A state about to materialize the FOLDER item. -/
def stFolder : PipelineState :=
  { stW with
    messageType := MessageType.CREATE,
    contentCreationQueue := [itemFolder], currentCreationIndex := 0 }

/-- An enriched IMAGE queue item whose `resolution` has exactly one `x` but
non-numeric parts. -/
def itemImg : QueueItem :=
  { name := "Pic", type := LibraryItemType.IMAGE, parentId := none,
    metadata := [("description", JVal.str "d"), ("fileType", JVal.str "png"),
      ("resolution", JVal.str "axb")],
    content := some "pic" }

/-- A state about to materialize the IMAGE item. -/
def stImg : PipelineState :=
  { stW with
    messageType := MessageType.CREATE,
    contentCreationQueue := [itemImg], currentCreationIndex := 0 }

/-- A chat state without any inline markers. -/
def stPlain : PipelineState :=
  { stW with
    userMessage := "hello",
    prevMessage := [{ role := Role.USER, message := "hi" }] }

/-- A READ state mentioning uid `x`. -/
def stMention : PipelineState :=
  { stW with
    userId := 1, messageType := MessageType.READ,
    userMessage := "see @mention \x7buid: x\x7d now" }

/-- A library table whose only active row belongs to user 2. -/
def dbOther : LibraryDB :=
  { nextId := 10,
    rows := [{ id := 9, uid := "x", isActive := true, isEmbedded := true,
               name := "Bio", type := LibraryItemType.NOTE, parentId := none,
               userId := 2, metadata := [] }] }

/-- The reference the resolver builds for uid `x`. -/
def refX : ReferenceCt :=
  { id := 9, uid := "x", name := "Bio", type := LibraryItemType.NOTE,
    parentId := none, purpose := "p", content := "" }

/-- Extract the payload of a successful run (with a fallback default). -/
def exOut {α : Type} (e : Except String α) (d : α) : α :=
  match e with
  | Except.ok a => a
  | Except.error _ => d

/-- The full CREATE run on the base oracle. -/
def c2out : PipelineState × LibraryDB × List Effect × List Node :=
  exOut (runNodes oBase 20 Node.identifyUserIntent stW dbW) (stW, dbW, [], [])

/-- The full UPDATE run on the update oracle. -/
def c6out : PipelineState × LibraryDB × List Effect × List Node :=
  exOut (runNodes oUpd 20 Node.identifyUserIntent stW dbW) (stW, dbW, [], [])

/-- One materializer step on the NOTE item. -/
def stepOut : NodeResult :=
  exOut (createOneContent oBase stStep dbW) (stStep, dbW, [])

/-- One materializer step on the FOLDER item. -/
def folderOut : NodeResult :=
  exOut (createOneContent oBase stFolder dbW) (stFolder, dbW, [])

/-- One materializer step on the IMAGE item. -/
def imgOut : NodeResult :=
  exOut (createOneContent oBase stImg dbW) (stImg, dbW, [])

/-- The store after the flashcard run (eleven cards). -/
def flashStore : Store :=
  (requestQuery oFlash 30 "sess" "" msgsW 7 storeW).2

/-- Number of `createOneContent` visits still due when entering the loop
region at a given node. -/
def loopExp (n : Node) (st : PipelineState) : Nat :=
  match n with
  | Node.createOneContent =>
    st.contentCreationQueue.length - st.currentCreationIndex
  | Node.checkCreationProcess =>
    st.contentCreationQueue.length - st.currentCreationIndex
  | _ => 0

/-! ### Step-shape lemmas -/

theorem getElem?_some_lt {l : List QueueItem} {i : Nat} {cc : QueueItem}
    (h : l[i]? = some cc) : i < l.length := by
  by_contra hge
  rw [List.getElem?_eq_none (Nat.le_of_not_lt hge)] at h
  cases h

/-- A successful `createOneContentBody` consumes the queue entry at the
cursor, leaves queue and message type unchanged, advances the cursor by
one, and appends exactly one row to both the materialized list and the
library table (also recording the insert). -/
theorem createOneContentBody_ok_fields {o : Oracles} {st : PipelineState}
    {db : LibraryDB} {st' : PipelineState} {db' : LibraryDB} {effs : List Effect}
    (h : createOneContentBody o st db = Except.ok (st', db', effs)) :
    st'.contentCreationQueue = st.contentCreationQueue ∧
    st'.currentCreationIndex = st.currentCreationIndex + 1 ∧
    st'.messageType = st.messageType ∧
    st.currentCreationIndex < st.contentCreationQueue.length ∧
    ∃ row, st'.createdContent = st.createdContent ++ [row] ∧
      db'.rows = db.rows ++ [row] ∧ Effect.dbInsert row ∈ effs := by
  simp only [createOneContentBody] at h
  cases hcc : st.contentCreationQueue[st.currentCreationIndex]? with
  | none =>
    rw [hcc] at h
    simp only [renderExternal] at h
    cases h
  | some cc =>
    rw [hcc] at h
    cases hre : renderExternal o (some cc) with
    | error e => rw [hre] at h; cases h
    | ok p =>
      rw [hre] at h
      obtain ⟨extMeta, effs1⟩ := p
      dsimp only at h
      cases hrp : resolveParent st.createdContent cc.parentId with
      | error e => rw [hrp] at h; cases h
      | ok pid =>
        rw [hrp] at h
        simp only [Except.ok.injEq, Prod.mk.injEq] at h
        obtain ⟨hst, hdb, heffs⟩ := h
        subst hst hdb heffs
        refine ⟨rfl, rfl, rfl, getElem?_some_lt hcc, mkRow st db cc pid extMeta, rfl, rfl, ?_⟩
        simp

/-- The same shape facts for `createOneContent` (the `catch` wrapper). -/
theorem createOneContent_ok_fields {o : Oracles} {st : PipelineState}
    {db : LibraryDB} {st' : PipelineState} {db' : LibraryDB} {effs : List Effect}
    (h : createOneContent o st db = Except.ok (st', db', effs)) :
    st'.contentCreationQueue = st.contentCreationQueue ∧
    st'.currentCreationIndex = st.currentCreationIndex + 1 ∧
    st'.messageType = st.messageType ∧
    st.currentCreationIndex < st.contentCreationQueue.length ∧
    ∃ row, st'.createdContent = st.createdContent ++ [row] ∧
      db'.rows = db.rows ++ [row] ∧ Effect.dbInsert row ∈ effs := by
  unfold createOneContent at h
  cases hbody : createOneContentBody o st db with
  | error e => rw [hbody] at h; cases h
  | ok r =>
    rw [hbody] at h
    cases h
    exact createOneContentBody_ok_fields hbody

/-- Full characterization of a successful `createOneContentBody`: the
rendered metadata and effects, the resolved parent, and the inserted row. -/
theorem createOneContentBody_ok_spec {o : Oracles} {st : PipelineState}
    {db : LibraryDB} {st' : PipelineState} {db' : LibraryDB} {effs : List Effect}
    (h : createOneContentBody o st db = Except.ok (st', db', effs)) :
    ∃ cc extMeta effs1 pid,
      st.contentCreationQueue[st.currentCreationIndex]? = some cc ∧
      renderExternal o (some cc) = Except.ok (extMeta, effs1) ∧
      resolveParent st.createdContent cc.parentId = Except.ok pid ∧
      st' = { st with
        currentCreationIndex := st.currentCreationIndex + 1,
        createdContent := st.createdContent ++ [mkRow st db cc pid extMeta] } ∧
      db' = { nextId := db.nextId + 1,
              rows := db.rows ++ [mkRow st db cc pid extMeta] } ∧
      effs = effs1 ++ [Effect.dbInsert (mkRow st db cc pid extMeta)] := by
  simp only [createOneContentBody] at h
  cases hcc : st.contentCreationQueue[st.currentCreationIndex]? with
  | none =>
    rw [hcc] at h
    simp only [renderExternal] at h
    cases h
  | some cc =>
    rw [hcc] at h
    cases hre : renderExternal o (some cc) with
    | error e => rw [hre] at h; cases h
    | ok p =>
      rw [hre] at h
      obtain ⟨extMeta, effs1⟩ := p
      dsimp only at h
      cases hrp : resolveParent st.createdContent cc.parentId with
      | error e => rw [hrp] at h; cases h
      | ok pid =>
        rw [hrp] at h
        simp only [Except.ok.injEq, Prod.mk.injEq] at h
        obtain ⟨hst, hdb, heffs⟩ := h
        subst hst hdb heffs
        exact ⟨cc, extMeta, effs1, pid, rfl, hre, hrp, rfl, rfl, rfl⟩

/-- The wrapped `createOneContent` succeeds exactly when the body does. -/
theorem createOneContent_ok_iff_body {o : Oracles} {st : PipelineState}
    {db : LibraryDB} {r : NodeResult} :
    createOneContent o st db = Except.ok r ↔
    createOneContentBody o st db = Except.ok r := by
  unfold createOneContent
  cases hbody : createOneContentBody o st db with
  | error e => simp
  | ok r2 => simp

/-- The `generateUserReply` only touches the response slot. -/
theorem generateUserReply_fields (o : Oracles) (st : PipelineState)
    (db : LibraryDB) :
    (generateUserReply o st db).1.contentCreationQueue = st.contentCreationQueue ∧
    (generateUserReply o st db).1.currentCreationIndex = st.currentCreationIndex ∧
    (generateUserReply o st db).1.createdContent = st.createdContent ∧
    (generateUserReply o st db).1.messageType = st.messageType ∧
    (generateUserReply o st db).2.1 = db := by
  cases hmt : st.messageType <;> simp [generateUserReply, hmt]

/-- A successful `updateChatSession` only touches the session and response
slots. -/
theorem updateChatSession_ok_fields {o : Oracles} {st : PipelineState}
    {db : LibraryDB} {st' : PipelineState} {db' : LibraryDB} {effs : List Effect}
    (h : updateChatSession o st db = Except.ok (st', db', effs)) :
    st'.contentCreationQueue = st.contentCreationQueue ∧
    st'.currentCreationIndex = st.currentCreationIndex ∧
    st'.createdContent = st.createdContent ∧
    st'.messageType = st.messageType ∧
    db' = db := by
  simp only [updateChatSession] at h
  split at h
  · cases h
  · simp only [Except.ok.injEq, Prod.mk.injEq] at h
    obtain ⟨hst, hdb, heffs⟩ := h
    subst hst hdb
    exact ⟨rfl, rfl, rfl, rfl, rfl⟩

/-! ### The materialization loop -/

/-- Loop invariant of `createOneContent` / `checkCreationProcess` /
`generateUserReply` / `updateChatSession`: a successful run from the loop
region visits the materializer exactly once per remaining queue entry,
appends exactly that many rows to the materialized list, and leaves the
queue itself unchanged. -/
theorem runNodes_loop {o : Oracles} :
    ∀ fuel n st db st' db' effs ns,
    (n = Node.createOneContent ∨ n = Node.checkCreationProcess ∨
     n = Node.generateUserReply ∨ n = Node.updateChatSession) →
    runNodes o fuel n st db = Except.ok (st', db', effs, ns) →
    ns.count Node.createOneContent = loopExp n st ∧
    st'.createdContent.length = st.createdContent.length + loopExp n st ∧
    st'.contentCreationQueue = st.contentCreationQueue := by
  intro fuel
  induction fuel with
  | zero =>
    intro n st db st' db' effs ns _ h
    simp [runNodes] at h
  | succ f ih =>
    intro n st db st' db' effs ns hn h
    rcases hn with rfl | rfl | rfl | rfl
    · -- createOneContent
      simp only [runNodes, stepNode] at h
      cases hstep : createOneContent o st db with
      | error e => rw [hstep] at h; cases h
      | ok r =>
        rw [hstep] at h
        obtain ⟨st1, db1, effs1⟩ := r
        obtain ⟨hq, hi, hm, hlt, row, hcreate, hrows, hmem⟩ :=
          createOneContent_ok_fields hstep
        simp only [nextNode] at h
        cases hrest : runNodes o f Node.checkCreationProcess st1 db1 with
        | error e => rw [hrest] at h; cases h
        | ok r2 =>
          rw [hrest] at h
          obtain ⟨st2, db2, effs2, ns2⟩ := r2
          simp only [Except.ok.injEq, Prod.mk.injEq] at h
          obtain ⟨hst, hdb, heffs, hns⟩ := h
          subst hst hdb heffs hns
          obtain ⟨hcount, hlen, hqueue⟩ :=
            ih Node.checkCreationProcess st1 db1 _ _ _ _ (by simp) hrest
          refine ⟨?_, ?_, ?_⟩
          · rw [List.count_cons]
            simp only [loopExp] at hcount ⊢
            rw [hcount, hq, hi]
            simp
            omega
          · simp only [loopExp] at hlen ⊢
            rw [hlen, hcreate, hq, hi]
            simp
            omega
          · rw [hqueue, hq]
    · -- checkCreationProcess
      simp only [runNodes, stepNode, nextNode, routeContentProgress] at h
      by_cases hlt : st.currentCreationIndex < st.contentCreationQueue.length
      · rw [if_pos hlt] at h
        cases hrest : runNodes o f Node.createOneContent st db with
        | error e => rw [hrest] at h; cases h
        | ok r2 =>
          rw [hrest] at h
          obtain ⟨st2, db2, effs2, ns2⟩ := r2
          simp only [Except.ok.injEq, Prod.mk.injEq] at h
          obtain ⟨hst, hdb, heffs, hns⟩ := h
          subst hst hdb heffs hns
          obtain ⟨hcount, hlen, hqueue⟩ :=
            ih Node.createOneContent st db _ _ _ _ (by simp) hrest
          refine ⟨?_, ?_, hqueue⟩
          · rw [List.count_cons]
            simp only [loopExp] at hcount ⊢
            rw [hcount]
            simp
          · simpa only [loopExp] using hlen
      · rw [if_neg hlt] at h
        cases hrest : runNodes o f Node.generateUserReply st db with
        | error e => rw [hrest] at h; cases h
        | ok r2 =>
          rw [hrest] at h
          obtain ⟨st2, db2, effs2, ns2⟩ := r2
          simp only [Except.ok.injEq, Prod.mk.injEq] at h
          obtain ⟨hst, hdb, heffs, hns⟩ := h
          subst hst hdb heffs hns
          obtain ⟨hcount, hlen, hqueue⟩ :=
            ih Node.generateUserReply st db _ _ _ _ (by simp) hrest
          refine ⟨?_, ?_, hqueue⟩
          · rw [List.count_cons]
            simp only [loopExp] at hcount ⊢
            rw [hcount]
            simp
            omega
          · simp only [loopExp] at hlen ⊢
            rw [hlen]
            omega
    · -- generateUserReply
      simp only [runNodes, stepNode, nextNode] at h
      obtain ⟨hq1, hi1, hc1, hm1, hdb1⟩ := generateUserReply_fields o st db
      cases hrest : runNodes o f Node.updateChatSession
          (generateUserReply o st db).1 (generateUserReply o st db).2.1 with
      | error e =>
        rw [hrest] at h
        cases h
      | ok r2 =>
        rw [hrest] at h
        obtain ⟨st2, db2, effs2, ns2⟩ := r2
        simp only [Except.ok.injEq, Prod.mk.injEq] at h
        obtain ⟨hst, hdb, heffs, hns⟩ := h
        subst hst hdb heffs hns
        obtain ⟨hcount, hlen, hqueue⟩ :=
          ih Node.updateChatSession _ _ _ _ _ _ (by simp) hrest
        refine ⟨?_, ?_, ?_⟩
        · rw [List.count_cons, hcount]
          simp [loopExp]
        · simp only [loopExp] at hlen ⊢
          rw [hlen, hc1]
        · rw [hqueue, hq1]
    · -- updateChatSession
      simp only [runNodes, stepNode, nextNode] at h
      cases hstep : updateChatSession o st db with
      | error e => rw [hstep] at h; cases h
      | ok r =>
        rw [hstep] at h
        obtain ⟨st1, db1, effs1⟩ := r
        simp only [Except.ok.injEq, Prod.mk.injEq] at h
        obtain ⟨hst, hdb, heffs, hns⟩ := h
        subst hst hdb heffs hns
        obtain ⟨hq1, hi1, hc1, hm1, hdb1⟩ := updateChatSession_ok_fields hstep
        refine ⟨?_, ?_, hq1⟩
        · simp [loopExp]
        · simp [loopExp, hc1]

/-- The `resolveMentions` only touches the two context slots and never writes
the library table. -/
theorem resolveMentions_fields (o : Oracles) (st : PipelineState)
    (db : LibraryDB) :
    (resolveMentions o st db).1.contentCreationQueue = st.contentCreationQueue ∧
    (resolveMentions o st db).1.currentCreationIndex = st.currentCreationIndex ∧
    (resolveMentions o st db).1.createdContent = st.createdContent ∧
    (resolveMentions o st db).1.messageType = st.messageType ∧
    (resolveMentions o st db).1.userMessage = st.userMessage ∧
    (resolveMentions o st db).2.1 = db := by
  unfold resolveMentions
  split
  · exact ⟨rfl, rfl, rfl, rfl, rfl, rfl⟩
  · dsimp only
    split
    · exact ⟨rfl, rfl, rfl, rfl, rfl, rfl⟩
    · exact ⟨rfl, rfl, rfl, rfl, rfl, rfl⟩

/-- A successful `planContentQueue` installs the planner output (nonempty)
as the queue with the cursor reset to zero, touching nothing else. -/
theorem planContentQueue_ok_fields {o : Oracles} {st : PipelineState}
    {db : LibraryDB} {st' : PipelineState} {db' : LibraryDB} {effs : List Effect}
    (h : planContentQueue o st db = Except.ok (st', db', effs)) :
    st'.contentCreationQueue.length = (o.plan st).length ∧
    1 ≤ st'.contentCreationQueue.length ∧
    st'.currentCreationIndex = 0 ∧
    st'.createdContent = st.createdContent ∧
    st'.messageType = st.messageType ∧
    db' = db := by
  simp only [planContentQueue] at h
  split at h
  · cases h
  · rename_i hne
    simp only [Except.ok.injEq, Prod.mk.injEq] at h
    obtain ⟨hst, hdb, heffs⟩ := h
    subst hst hdb
    refine ⟨by simp, by simp; omega, rfl, rfl, rfl, rfl⟩

/-- The `createContentQueue` replaces the queue by its enrichment image
(length preserved) and touches nothing else. -/
theorem createContentQueue_fields (o : Oracles) (st : PipelineState)
    (db : LibraryDB) :
    (createContentQueue o st db).1.contentCreationQueue =
      st.contentCreationQueue.map (enrichOne o st) ∧
    (createContentQueue o st db).1.contentCreationQueue.length =
      st.contentCreationQueue.length ∧
    (createContentQueue o st db).1.currentCreationIndex = st.currentCreationIndex ∧
    (createContentQueue o st db).1.createdContent = st.createdContent ∧
    (createContentQueue o st db).1.messageType = st.messageType ∧
    (createContentQueue o st db).2.1 = db := by
  refine ⟨rfl, by simp [createContentQueue], rfl, rfl, rfl, rfl⟩

/-- Routing helper: out of `resolveMentions` a CREATE run goes to the
planner. -/
theorem nextNode_afterResolve_create {st : PipelineState}
    (h : st.messageType = MessageType.CREATE) :
    nextNode Node.resolveMentions st = Except.ok (some Node.planContentQueue) := by
  unfold nextNode routeAfterContext
  rw [h]
  rfl

/-- A successful CREATE-classified run from the graph entry visits the
materializer exactly once per planned queue entry and materializes exactly
that many items; the planned queue is nonempty. -/
theorem runNodes_create_run {o : Oracles} {fuel : Nat} {st : PipelineState}
    {db : LibraryDB} {st' : PipelineState} {db' : LibraryDB}
    {effs : List Effect} {ns : List Node}
    (h : runNodes o fuel Node.identifyUserIntent st db =
      Except.ok (st', db', effs, ns))
    (hintent : o.intent st = MessageType.CREATE)
    (hcc : st.createdContent = []) :
    ns.count Node.createOneContent = st'.contentCreationQueue.length ∧
    st'.createdContent.length = st'.contentCreationQueue.length ∧
    1 ≤ st'.contentCreationQueue.length := by
  -- peel `identifyUserIntent`
  cases fuel with
  | zero => simp [runNodes] at h
  | succ f1 =>
  simp only [runNodes, stepNode, identifyUserIntent, hintent, nextNode,
    routeAfterRefs] at h
  cases hr1 : runNodes o f1 Node.resolveMentions
      { st with messageType := MessageType.CREATE } db with
  | error e => rw [hr1] at h; cases h
  | ok r1 =>
  rw [hr1] at h
  obtain ⟨stA, dbA, effsA, nsA⟩ := r1
  simp only [Except.ok.injEq, Prod.mk.injEq] at h
  obtain ⟨hst, hdb, heffs, hns⟩ := h
  subst hst hdb heffs hns
  -- peel `resolveMentions`
  cases f1 with
  | zero => simp [runNodes] at hr1
  | succ f2 =>
  obtain ⟨hqB, hiB, hcB, hmB, huB, hdbB⟩ := resolveMentions_fields o
    { st with messageType := MessageType.CREATE } db
  rcases hres : resolveMentions o { st with messageType := MessageType.CREATE } db
    with ⟨stB, dbB, effsB⟩
  rw [hres] at hqB hiB hcB hmB huB hdbB
  simp only at hqB hiB hcB hmB huB hdbB
  simp only [runNodes, stepNode, hres] at hr1
  rw [nextNode_afterResolve_create hmB] at hr1
  dsimp only at hr1
  cases hr2 : runNodes o f2 Node.planContentQueue stB dbB with
  | error e => rw [hr2] at hr1; cases hr1
  | ok r2 =>
  rw [hr2] at hr1
  obtain ⟨stB2, dbB2, effsB2, nsB2⟩ := r2
  simp only [Except.ok.injEq, Prod.mk.injEq] at hr1
  obtain ⟨hst, hdb, heffs, hns⟩ := hr1
  subst hst hdb heffs hns
  -- peel `planContentQueue`
  cases f2 with
  | zero => simp [runNodes] at hr2
  | succ f3 =>
  simp only [runNodes, stepNode] at hr2
  cases hplan : planContentQueue o stB dbB with
  | error e => rw [hplan] at hr2; cases hr2
  | ok rP =>
  rw [hplan] at hr2
  obtain ⟨stC, dbC, effsC⟩ := rP
  obtain ⟨hlenC, hposC, hiC, hcC, hmC, hdbC⟩ := planContentQueue_ok_fields hplan
  simp only [nextNode] at hr2
  cases hr3 : runNodes o f3 Node.createContentQueue stC dbC with
  | error e => rw [hr3] at hr2; cases hr2
  | ok r3 =>
  rw [hr3] at hr2
  obtain ⟨stC2, dbC2, effsC2, nsC2⟩ := r3
  simp only [Except.ok.injEq, Prod.mk.injEq] at hr2
  obtain ⟨hst, hdb, heffs, hns⟩ := hr2
  subst hst hdb heffs hns
  -- peel `createContentQueue`
  cases f3 with
  | zero => simp [runNodes] at hr3
  | succ f4 =>
  obtain ⟨hqD, hlenD, hiD, hcD, hmD, hdbD⟩ := createContentQueue_fields o stC dbC
  rcases henr : createContentQueue o stC dbC with ⟨stD0, dbD0, effsD0⟩
  rw [henr] at hqD hlenD hiD hcD hmD hdbD
  simp only at hqD hlenD hiD hcD hmD hdbD
  simp only [runNodes, stepNode, henr, nextNode] at hr3
  cases hr4 : runNodes o f4 Node.createOneContent stD0 dbD0 with
  | error e => rw [hr4] at hr3; cases hr3
  | ok r4 =>
  rw [hr4] at hr3
  obtain ⟨stD, dbD, effsD, nsD⟩ := r4
  simp only [Except.ok.injEq, Prod.mk.injEq] at hr3
  obtain ⟨hst, hdb, heffs, hns⟩ := hr3
  subst hst hdb heffs hns
  -- the loop
  obtain ⟨hcount, hlen, hqueue⟩ := runNodes_loop f4 Node.createOneContent
    stD0 dbD0 _ _ _ _ (Or.inl rfl) hr4
  simp only [loopExp] at hcount hlen
  rw [hiD, hiC] at hcount hlen
  rw [hcD, hcC, hcB] at hlen
  simp only [hcc, List.length_nil, Nat.zero_add, Nat.sub_zero] at hcount hlen
  have hNq : stD.contentCreationQueue.length = stC.contentCreationQueue.length := by
    rw [hqueue, hlenD]
  refine ⟨?_, ?_, ?_⟩
  · simp only [List.count_cons, List.count_nil]
    rw [hcount, hNq, hlenD]
    simp
  · rw [hlen, hNq, hlenD]
  · rw [hNq]
    omega

/-- Every reference surviving `putInState` corresponds to a fetched row
with the same uid and id. -/
theorem putInState_mem_sound {o : Oracles} {st : PipelineState} :
    ∀ reqs itemData c, c ∈ (putInState o st reqs itemData).1 →
    ∃ d ∈ itemData, d.uid = c.uid ∧ d.id = c.id := by
  intro reqs
  induction reqs with
  | nil =>
    intro itemData c hc
    simp [putInState] at hc
  | cons req rest ih =>
    intro itemData c hc
    simp only [putInState] at hc
    cases hfind : itemData.find? (fun d => d.uid == req.uid) with
    | none =>
      rw [hfind] at hc
      exact ih itemData c hc
    | some itemD =>
      rw [hfind] at hc
      dsimp only at hc
      rcases List.mem_cons.mp hc with rfl | htail
      · refine ⟨itemD, List.mem_of_find?_eq_some hfind, rfl, rfl⟩
      · exact ih itemData c htail

/-- The `putInState` keeps exactly the requests whose uid is found among the
fetched rows. -/
theorem putInState_length {o : Oracles} {st : PipelineState} :
    ∀ reqs itemData,
    (putInState o st reqs itemData).1.length =
      (reqs.filter
        (fun r => (itemData.find? (fun d => d.uid == r.uid)).isSome)).length := by
  intro reqs
  induction reqs with
  | nil => intro itemData; simp [putInState]
  | cons req rest ih =>
    intro itemData
    simp only [putInState]
    cases hfind : itemData.find? (fun d => d.uid == req.uid) with
    | none =>
      rw [List.filter_cons]
      simp only [hfind, Option.isSome_none]
      exact ih itemData
    | some itemD =>
      rw [List.filter_cons]
      simp only [hfind, Option.isSome_some, List.length_cons]
      rw [ih itemData]
      simp

/-- A request whose uid is not among the fetched rows produces a logged
warning while the loop continues. -/
theorem putInState_warn {o : Oracles} {st : PipelineState} :
    ∀ reqs itemData r, r ∈ reqs →
    itemData.find? (fun d => d.uid == r.uid) = none →
    Effect.warn ("Content not found for uid: " ++ r.uid) ∈
      (putInState o st reqs itemData).2 := by
  intro reqs
  induction reqs with
  | nil =>
    intro itemData r hr
    simp at hr
  | cons req rest ih =>
    intro itemData r hr hnone
    rcases List.mem_cons.mp hr with rfl | htail
    · simp only [putInState, hnone]
      exact List.mem_cons_self _ _
    · simp only [putInState]
      cases hfind : itemData.find? (fun d => d.uid == req.uid) with
      | none =>
        dsimp only
        exact List.mem_cons_of_mem _ (ih itemData r htail hnone)
      | some itemD =>
        dsimp only
        exact List.mem_append_right _ (ih itemData r htail hnone)

/-- The response slot built by a successful `updateChatSession`. -/
theorem updateChatSession_ok_response {o : Oracles} {st : PipelineState}
    {db : LibraryDB} {st' : PipelineState} {db' : LibraryDB} {effs : List Effect}
    (h : updateChatSession o st db = Except.ok (st', db', effs)) :
    st'.response = some ((st.response.getD "null") ++ "\n" ++
      String.intercalate "\n" (st.createdContent.map mkCreatedMarker)) ∧
    effs = [Effect.llmCall] := by
  simp only [updateChatSession] at h
  split at h
  · cases h
  · simp only [Except.ok.injEq, Prod.mk.injEq] at h
    obtain ⟨hst, hdb, heffs⟩ := h
    subst hst heffs
    exact ⟨rfl, rfl⟩

/-- FOLDER, NOTE and FLASHCARD items need no external rendering. -/
theorem renderExternal_plain {o : Oracles} {cc : QueueItem}
    (h : cc.type = LibraryItemType.FOLDER ∨ cc.type = LibraryItemType.NOTE ∨
      cc.type = LibraryItemType.FLASHCARD) :
    renderExternal o (some cc) = Except.ok ([], []) := by
  rcases h with h | h | h <;> simp [renderExternal, h]

/-- A VIDEO item makes the rendering prefix raise the explicit
`Currently not supported` failure. -/
theorem renderExternal_video {o : Oracles} {cc : QueueItem}
    (h : cc.type = LibraryItemType.VIDEO) :
    renderExternal o (some cc) = Except.error "Currently not supported" := by
  simp [renderExternal, h]

/-- A successfully rendered IMAGE item records exactly one download call at
the pollinations URL built from the parsed dimensions. -/
theorem renderExternal_image {o : Oracles} {cc : QueueItem} {m : Metadata}
    {effs1 : List Effect}
    (h : renderExternal o (some cc) = Except.ok (m, effs1))
    (htype : cc.type = LibraryItemType.IMAGE) :
    effs1 = [Effect.downloadFile
      (imageUrl (cc.content.getD "") (imageDims cc.metadata).1
        (imageDims cc.metadata).2) cc.name "png"] := by
  simp only [renderExternal, htype] at h
  cases hdl : o.downloadFile
      (imageUrl (cc.content.getD "") (imageDims cc.metadata).1
        (imageDims cc.metadata).2) cc.name "png" with
  | error e => rw [hdl] at h; cases h
  | ok mm =>
    rw [hdl] at h
    simp only [Except.ok.injEq, Prod.mk.injEq] at h
    exact h.2.symm

/-- The enrichment step normalizes the parent sentinel `0` to null and
keeps every other planned parent verbatim. -/
theorem enrichOne_parentId (o : Oracles) (st : PipelineState) (item : QueueItem) :
    (enrichOne o st item).parentId =
      if item.parentId = some 0 then none else item.parentId := by
  by_cases h : item.parentId = some 0 <;>
    simp [enrichOne, h]

/-- The enrichment step keeps the planned name and type. -/
theorem enrichOne_type (o : Oracles) (st : PipelineState) (item : QueueItem) :
    (enrichOne o st item).type = item.type ∧
    (enrichOne o st item).name = item.name :=
  ⟨rfl, rfl⟩

/-- A failed transaction body leaves the durable store untouched
(`db.transaction` rollback). -/
theorem requestQuery_error_rollback {o : Oracles} {fuel : Nat} {uid : String}
    {chatSummary : String} {msgs : List MessageDto} {userId : Nat}
    {store : Store} {e : String} {store1 : Store}
    (h : requestQuery o fuel uid chatSummary msgs userId store =
      (Except.error e, store1)) :
    store1 = store := by
  unfold requestQuery at h
  cases htx : requestQueryTx o fuel uid chatSummary msgs userId store with
  | error e2 =>
    rw [htx] at h
    simp only [Prod.mk.injEq] at h
    exact h.2.symm
  | ok r =>
    rw [htx] at h
    obtain ⟨r1, store2⟩ := r
    simp only [Prod.mk.injEq] at h
    cases h.1

/-- Any error out of `generateGraphResponses` is the generic
`Failed to generate response` (the service catch re-wraps every failure). -/
theorem generateGraphResponses_error_generic {o : Oracles} {fuel : Nat}
    {userId : Nat} {sessionUid chatSummary : String} {msgs : List MessageDto}
    {db : LibraryDB} {e : String}
    (h : generateGraphResponses o fuel userId sessionUid chatSummary msgs db =
      Except.error e) :
    e = "Failed to generate response" := by
  unfold generateGraphResponses at h
  cases hinit : initialState userId sessionUid chatSummary msgs with
  | none =>
    rw [hinit] at h
    cases h
    rfl
  | some st0 =>
    rw [hinit] at h
    dsimp only at h
    cases hrun : runNodes o fuel Node.identifyUserIntent st0 db with
    | error e2 =>
      rw [hrun] at h
      cases h
      rfl
    | ok r =>
      rw [hrun] at h
      cases h

/-! ### Claim theorems -/

/-- C1: at every materialization step, a planned parent sentinel `-1`
resolves to the id of the last entry of the materialized list as it was
immediately before this insertion; any other planned parent is inserted
verbatim; and queue enrichment normalizes the sentinel `0` to null. -/
theorem C1_parent_sentinel :
    (∀ (o : Oracles) (st : PipelineState) (db : LibraryDB)
        (st' : PipelineState) (db' : LibraryDB) (effs : List Effect)
        (cc : QueueItem),
      createOneContent o st db = Except.ok (st', db', effs) →
      st.contentCreationQueue[st.currentCreationIndex]? = some cc →
      ∃ row, st'.createdContent = st.createdContent ++ [row] ∧
        Effect.dbInsert row ∈ effs ∧
        (cc.parentId = some (-1) →
          ∃ lastI, st.createdContent.getLast? = some lastI ∧
            row.parentId = some (Int.ofNat lastI.id)) ∧
        (cc.parentId ≠ some (-1) → row.parentId = cc.parentId)) ∧
    (∀ (o : Oracles) (st : PipelineState) (item : QueueItem),
      (enrichOne o st item).parentId =
        if item.parentId = some 0 then none else item.parentId) := by
  constructor
  · intro o st db st' db' effs cc h hcc
    obtain ⟨cc2, extMeta, effs1, pid, hcc2, hre, hrp, hst, hdb, heffs⟩ :=
      createOneContentBody_ok_spec (createOneContent_ok_iff_body.mp h)
    rw [hcc] at hcc2
    cases hcc2
    refine ⟨mkRow st db cc pid extMeta, by rw [hst], by rw [heffs]; simp, ?_, ?_⟩
    · intro hminus
      rw [hminus] at hrp
      unfold resolveParent at hrp
      rw [if_pos rfl] at hrp
      cases hlast : st.createdContent.getLast? with
      | none => rw [hlast] at hrp; cases hrp
      | some lastI =>
        rw [hlast] at hrp
        cases hrp
        exact ⟨lastI, rfl, rfl⟩
    · intro hne
      unfold resolveParent at hrp
      rw [if_neg hne] at hrp
      cases hrp
      rfl
  · exact enrichOne_parentId

/-- C9: every inserted library item gets `isEmbedded = false` for the
rendered types DOCUMENT / AUDIO / VIDEO / IMAGE and `isEmbedded = true` for
FOLDER / NOTE / FLASHCARD. -/
theorem C9_isEmbedded_flag :
    ∀ (o : Oracles) (st : PipelineState) (db : LibraryDB)
      (st' : PipelineState) (db' : LibraryDB) (effs : List Effect)
      (cc : QueueItem),
    createOneContent o st db = Except.ok (st', db', effs) →
    st.contentCreationQueue[st.currentCreationIndex]? = some cc →
    ∃ row, st'.createdContent = st.createdContent ++ [row] ∧
      row.type = cc.type ∧
      ((cc.type = LibraryItemType.DOCUMENT ∨ cc.type = LibraryItemType.AUDIO ∨
        cc.type = LibraryItemType.VIDEO ∨ cc.type = LibraryItemType.IMAGE) →
        row.isEmbedded = false) ∧
      ((cc.type = LibraryItemType.FOLDER ∨ cc.type = LibraryItemType.NOTE ∨
        cc.type = LibraryItemType.FLASHCARD) →
        row.isEmbedded = true) := by
  intro o st db st' db' effs cc h hcc
  obtain ⟨cc2, extMeta, effs1, pid, hcc2, hre, hrp, hst, hdb, heffs⟩ :=
    createOneContentBody_ok_spec (createOneContent_ok_iff_body.mp h)
  rw [hcc] at hcc2
  cases hcc2
  refine ⟨mkRow st db cc pid extMeta, by rw [hst], rfl, ?_, ?_⟩
  · intro hty
    rcases hty with hty | hty | hty | hty <;> simp [mkRow, hty]
  · intro hty
    rcases hty with hty | hty | hty <;> simp [mkRow, hty]

/-- C10: when the queue entry at the cursor carries the parent sentinel
`-1` while the materialized list is still empty, the last-entry lookup
yields no item, so the step takes its error branch and the request fails
with the wrapped `Failed to create content`. -/
theorem C10_dash_one_first_item_fails :
    ∀ (o : Oracles) (st : PipelineState) (db : LibraryDB) (cc : QueueItem),
    st.contentCreationQueue[st.currentCreationIndex]? = some cc →
    cc.parentId = some (-1) →
    st.createdContent = [] →
    st.createdContent.getLast? = none ∧
    resolveParent st.createdContent cc.parentId =
      Except.error "TypeError: cannot read id of undefined" ∧
    createOneContent o st db = Except.error "Failed to create content" := by
  intro o st db cc hcc hp hempty
  have hlast : st.createdContent.getLast? = none := by rw [hempty]; rfl
  have hrp : resolveParent st.createdContent cc.parentId =
      Except.error "TypeError: cannot read id of undefined" := by
    unfold resolveParent
    rw [if_pos hp, hlast]
  refine ⟨hlast, hrp, ?_⟩
  unfold createOneContent
  cases hbody : createOneContentBody o st db with
  | error e => rfl
  | ok r =>
    obtain ⟨st', db', effs⟩ := r
    obtain ⟨cc2, extMeta, effs1, pid, hcc2, hre, hrp2, _, _, _⟩ :=
      createOneContentBody_ok_spec hbody
    rw [hcc] at hcc2
    cases hcc2
    rw [hrp] at hrp2
    cases hrp2

/-- C5: a message with zero `@mention` markers whose prior turns contain
zero `@created` markers makes `resolveMentions` return the state (and the
store) unchanged with an empty effect trace: no generation call, no
storage read. -/
theorem C5_resolver_cheap_path :
    ∀ (o : Oracles) (st : PipelineState) (db : LibraryDB),
    countMention st.userMessage = 0 →
    (∀ m ∈ st.prevMessage, countCreated m.message = 0) →
    resolveMentions o st db = (st, db, []) := by
  intro o st db hm hc
  unfold resolveMentions
  rw [if_pos]
  refine ⟨hm, List.sum_eq_zero ?_⟩
  intro x hx
  rw [List.mem_map] at hx
  obtain ⟨m, hmm, rfl⟩ := hx
  exact hc m hmm

/-- C3 (amended): reaching a VIDEO queue item makes the materializer raise
the explicit `Currently not supported` failure and the whole run aborts
with the store rolled back; but the surfaced error is the generic wrapped
message (`Failed to create content`, re-wrapped by the service entry point
as `Failed to generate response`), not the friendly fixed text. -/
theorem C3_video_abort :
    (∀ (o : Oracles) (st : PipelineState) (db : LibraryDB) (cc : QueueItem),
      st.contentCreationQueue[st.currentCreationIndex]? = some cc →
      cc.type = LibraryItemType.VIDEO →
      createOneContentBody o st db = Except.error "Currently not supported" ∧
      createOneContent o st db = Except.error "Failed to create content") ∧
    (∀ (o : Oracles) (fuel userId : Nat) (sessionUid chatSummary : String)
        (msgs : List MessageDto) (db : LibraryDB) (e : String),
      generateGraphResponses o fuel userId sessionUid chatSummary msgs db =
        Except.error e →
      e = "Failed to generate response") ∧
    (∀ (o : Oracles) (fuel : Nat) (uid chatSummary : String)
        (msgs : List MessageDto) (userId : Nat) (store : Store) (e : String)
        (store1 : Store),
      requestQuery o fuel uid chatSummary msgs userId store =
        (Except.error e, store1) →
      store1 = store) := by
  refine ⟨?_, ?_, ?_⟩
  · intro o st db cc hcc htype
    have hbody : createOneContentBody o st db =
        Except.error "Currently not supported" := by
      simp only [createOneContentBody, hcc, renderExternal_video htype]
    refine ⟨hbody, ?_⟩
    unfold createOneContent
    rw [hbody]
  · intro o fuel userId sessionUid chatSummary msgs db e h
    exact generateGraphResponses_error_generic h
  · intro o fuel uid chatSummary msgs userId store e store1 h
    exact requestQuery_error_rollback h

/-- C7 (amended): the FOLDER enrichment schema always populates both the
`color` and `icon` metadata fields and the materializer stores FOLDER
metadata unchanged, so every materialized FOLDER item carries both fields;
the FLASHCARD `cards` array, by contrast, is stored with whatever length
the generation call returned — no 1..10 bound is enforced. -/
theorem C7_metadata_shapes :
    (∀ (o : Oracles) (st : PipelineState) (item : QueueItem),
      item.type = LibraryItemType.FOLDER →
      (mdLookup (enrichOne o st item).metadata "color").isSome ∧
      (mdLookup (enrichOne o st item).metadata "icon").isSome) ∧
    (∀ (o : Oracles) (st : PipelineState) (db : LibraryDB),
      (createContentQueue o st db).1.contentCreationQueue =
        st.contentCreationQueue.map (enrichOne o st)) ∧
    (∀ (o : Oracles) (st : PipelineState) (db : LibraryDB)
        (st' : PipelineState) (db' : LibraryDB) (effs : List Effect)
        (cc : QueueItem),
      createOneContent o st db = Except.ok (st', db', effs) →
      st.contentCreationQueue[st.currentCreationIndex]? = some cc →
      cc.type = LibraryItemType.FOLDER →
      ∃ row, st'.createdContent = st.createdContent ++ [row] ∧
        row.metadata = cc.metadata) ∧
    (∀ (o : Oracles) (st : PipelineState) (item : QueueItem),
      item.type = LibraryItemType.FLASHCARD →
      mdLookup (enrichOne o st item).metadata "cards" =
        some (JVal.cards (o.enrichFlashcard st item).cards)) := by
  refine ⟨?_, ?_, ?_, ?_⟩
  · intro o st item htype
    constructor <;> simp [enrichOne, htype, mdLookup]
  · intro o st db
    rfl
  · intro o st db st' db' effs cc h hcc htype
    obtain ⟨cc2, extMeta, effs1, pid, hcc2, hre, hrp, hst, hdb, heffs⟩ :=
      createOneContentBody_ok_spec (createOneContent_ok_iff_body.mp h)
    rw [hcc] at hcc2
    cases hcc2
    rw [renderExternal_plain (Or.inl htype)] at hre
    have hext : extMeta = [] := by
      simp only [Except.ok.injEq, Prod.mk.injEq] at hre
      exact hre.1.symm
    refine ⟨mkRow st db cc pid extMeta, by rw [hst], ?_⟩
    simp [mkRow, mdMerge, hext]
  · intro o st item htype
    simp [enrichOne, htype, mdLookup]

/-- C8 (amended): the IMAGE dimensions come from splitting the metadata
`resolution` string on `x`; a split with exactly two parts is used verbatim
(even if the parts are empty or non-numeric), anything else — including an
absent resolution — falls back to 1024x1024; the parsed pair is what the
image-generation collaborator is called with. -/
theorem C8_image_resolution :
    (∀ md, mdLookupStr md "resolution" = none →
      imageDims md = ("1024", "1024")) ∧
    (∀ md r w h, mdLookupStr md "resolution" = some r →
      splitOnX r = [w, h] → imageDims md = (w, h)) ∧
    (∀ md r, mdLookupStr md "resolution" = some r →
      (splitOnX r).length ≠ 2 → imageDims md = ("1024", "1024")) ∧
    (∀ (o : Oracles) (st : PipelineState) (db : LibraryDB)
        (st' : PipelineState) (db' : LibraryDB) (effs : List Effect)
        (cc : QueueItem),
      createOneContent o st db = Except.ok (st', db', effs) →
      st.contentCreationQueue[st.currentCreationIndex]? = some cc →
      cc.type = LibraryItemType.IMAGE →
      Effect.downloadFile
        (imageUrl (cc.content.getD "") (imageDims cc.metadata).1
          (imageDims cc.metadata).2) cc.name "png" ∈ effs) := by
  refine ⟨?_, ?_, ?_, ?_⟩
  · intro md h
    unfold imageDims
    rw [h]
  · intro md r w h hmd hsplit
    unfold imageDims
    rw [hmd]
    dsimp only
    rw [hsplit]
  · intro md r hmd hlen
    unfold imageDims
    rw [hmd]
    dsimp only
    cases hsplit : splitOnX r with
    | nil => rfl
    | cons a tl =>
      cases tl with
      | nil => rfl
      | cons b tl2 =>
        cases tl2 with
        | nil => rw [hsplit] at hlen; simp at hlen
        | cons c tl3 => rfl
  · intro o st db st' db' effs cc h hcc htype
    obtain ⟨cc2, extMeta, effs1, pid, hcc2, hre, hrp, hst, hdb, heffs⟩ :=
      createOneContentBody_ok_spec (createOneContent_ok_iff_body.mp h)
    rw [hcc] at hcc2
    cases hcc2
    rw [heffs, renderExternal_image hre htype]
    simp

/-- C4 (amended): a reference survives into the resolved context lists only
if its uid matches an ACTIVE library row — the query does not filter by the
requesting user, so ownership is not required; a reference without such a
row is skipped with a logged warning while the remaining references are
still processed (the request never aborts for one bad reference). -/
theorem C4_reference_resolution :
    (∀ (o : Oracles) (st : PipelineState) (db : LibraryDB),
      st.mentionContext = [] → st.sessionContext = [] →
      ∀ c, (c ∈ (resolveMentions o st db).1.mentionContext ∨
            c ∈ (resolveMentions o st db).1.sessionContext) →
      ∃ row ∈ db.rows, row.isActive = true ∧ row.uid = c.uid ∧
        row.id = c.id) ∧
    (∀ (o : Oracles) (st : PipelineState) (reqs : List RefRequest)
        (itemData : List LibraryItemR),
      (putInState o st reqs itemData).1.length =
        (reqs.filter
          (fun r => (itemData.find? (fun d => d.uid == r.uid)).isSome)).length) ∧
    (∀ (o : Oracles) (st : PipelineState) (reqs : List RefRequest)
        (itemData : List LibraryItemR) (r : RefRequest), r ∈ reqs →
      itemData.find? (fun d => d.uid == r.uid) = none →
      Effect.warn ("Content not found for uid: " ++ r.uid) ∈
        (putInState o st reqs itemData).2) := by
  refine ⟨?_, ?_, ?_⟩
  · intro o st db hm hs c hc
    unfold resolveMentions at hc
    split at hc
    · dsimp only at hc
      rw [hm, hs] at hc
      simp at hc
    · dsimp only at hc
      split at hc
      · rw [hm, hs] at hc
        simp at hc
      · dsimp only at hc
        have hsound : ∃ d ∈ selectActiveByUids db
            (List.map (fun i => i.uid)
              ((o.resolveRefs st).mentionContent ++ (o.resolveRefs st).createdContent)),
            d.uid = c.uid ∧ d.id = c.id := by
          rcases hc with hc | hc
          · exact putInState_mem_sound _ _ c hc
          · exact putInState_mem_sound _ _ c hc
        obtain ⟨d, hd, hduid, hdid⟩ := hsound
        unfold selectActiveByUids at hd
        rw [List.mem_filter] at hd
        obtain ⟨hdrows, hdpred⟩ := hd
        rw [Bool.and_eq_true] at hdpred
        exact ⟨d, hdrows, hdpred.2, hduid, hdid⟩
  · intro o st reqs itemData
    exact putInState_length reqs itemData
  · intro o st reqs itemData r hr hnone
    exact putInState_warn reqs itemData r hr hnone

/-- Tail of an UPDATE/DELETE run: the session-update node finishes the run,
appending only the (empty) created-marker block to the response. -/
theorem runNodes_unsupported_tail {o : Oracles} {f : Nat}
    {st2 : PipelineState} {db : LibraryDB} {st' : PipelineState}
    {db' : LibraryDB} {effs : List Effect} {ns : List Node}
    (h : runNodes o f Node.updateChatSession st2 db =
      Except.ok (st', db', effs, ns))
    (hcc : st2.createdContent = [])
    (hresp : st2.response = some fixedUnsupportedMsg) :
    ns = [Node.updateChatSession] ∧ db' = db ∧ st'.createdContent = [] ∧
    effs = [Effect.llmCall] ∧
    st'.response = some (fixedUnsupportedMsg ++ "\n" ++ "") := by
  cases f with
  | zero => simp [runNodes] at h
  | succ f3 =>
  simp only [runNodes, stepNode, nextNode] at h
  cases hu : updateChatSession o st2 db with
  | error e => rw [hu] at h; cases h
  | ok r =>
    rw [hu] at h
    obtain ⟨stU, dbU, effsU⟩ := r
    dsimp only at h
    simp only [Except.ok.injEq, Prod.mk.injEq] at h
    obtain ⟨hst, hdb, heffs, hns⟩ := h
    subst hst hdb heffs hns
    obtain ⟨hqU, hiU, hcU, hmU, hdbU⟩ := updateChatSession_ok_fields hu
    obtain ⟨hrespU, heffsU⟩ := updateChatSession_ok_response hu
    refine ⟨rfl, hdbU, by rw [hcU, hcc], heffsU, ?_⟩
    rw [hrespU, hresp, hcc]
    rfl

/-- From the reply synthesizer onward, an UPDATE/DELETE run produces
exactly the fixed message and one summary call. -/
theorem runNodes_reply_unsupported {o : Oracles} {f : Nat}
    {st1 : PipelineState} {db : LibraryDB} {st' : PipelineState}
    {db' : LibraryDB} {effs : List Effect} {ns : List Node}
    (h : runNodes o f Node.generateUserReply st1 db =
      Except.ok (st', db', effs, ns))
    (hmt : st1.messageType = MessageType.UPDATE ∨
      st1.messageType = MessageType.DELETE)
    (hcc : st1.createdContent = []) :
    ns = [Node.generateUserReply, Node.updateChatSession] ∧ db' = db ∧
    st'.createdContent = [] ∧ effs = [Effect.llmCall] ∧
    st'.response = some (fixedUnsupportedMsg ++ "\n" ++ "") := by
  cases f with
  | zero => simp [runNodes] at h
  | succ f2 =>
  have hrepl : generateUserReply o st1 db =
      ({ st1 with response := some fixedUnsupportedMsg }, db, []) := by
    rcases hmt with hmt | hmt <;> simp [generateUserReply, hmt]
  simp only [runNodes, stepNode, hrepl, nextNode] at h
  cases hr2 : runNodes o f2 Node.updateChatSession
      { st1 with response := some fixedUnsupportedMsg } db with
  | error e => rw [hr2] at h; cases h
  | ok r2 =>
    rw [hr2] at h
    obtain ⟨stT, dbT, effsT, nsT⟩ := r2
    simp only [Except.ok.injEq, Prod.mk.injEq] at h
    obtain ⟨hst, hdb, heffs, hns⟩ := h
    subst hst hdb heffs hns
    obtain ⟨hnsT, hdbT, hcT, heffsT, hrespT⟩ :=
      runNodes_unsupported_tail hr2 (by simpa using hcc) rfl
    subst hnsT heffsT
    exact ⟨rfl, hdbT, hcT, rfl, hrespT⟩

/-- C6: a run classified UPDATE or DELETE routes from classification
straight to reply synthesis and session update — visiting neither the
resolver, the planner nor the materializer — the synthesized reply is the
fixed not-supported message, no insert effect is emitted and the library
table is untouched. -/
theorem C6_update_delete_route :
    (∀ (o : Oracles) (fuel : Nat) (st : PipelineState) (db : LibraryDB)
        (st' : PipelineState) (db' : LibraryDB) (effs : List Effect)
        (ns : List Node),
      runNodes o fuel Node.identifyUserIntent st db =
        Except.ok (st', db', effs, ns) →
      (o.intent st = MessageType.UPDATE ∨ o.intent st = MessageType.DELETE) →
      st.createdContent = [] →
      ns = [Node.identifyUserIntent, Node.generateUserReply,
            Node.updateChatSession] ∧
      db' = db ∧
      st'.createdContent = [] ∧
      effs = [Effect.llmCall, Effect.llmCall] ∧
      st'.response = some (fixedUnsupportedMsg ++ "\n" ++ "")) ∧
    (∀ (o : Oracles) (st : PipelineState) (db : LibraryDB),
      (st.messageType = MessageType.UPDATE ∨
       st.messageType = MessageType.DELETE) →
      (generateUserReply o st db).1.response = some fixedUnsupportedMsg) := by
  constructor
  · intro o fuel st db st' db' effs ns h hintent hcc
    rcases hintent with hintent | hintent
    all_goals (
      cases fuel with
      | zero => simp [runNodes] at h
      | succ f1 =>
      simp only [runNodes, stepNode, identifyUserIntent, hintent, nextNode,
        routeAfterRefs] at h
      rcases hr1 : runNodes o f1 Node.generateUserReply
          { st with messageType := _ } db with _ | ⟨stR, dbR, effsR, nsR⟩
      · rw [hr1] at h
        cases h
      · rw [hr1] at h
        simp only [Except.ok.injEq, Prod.mk.injEq] at h
        obtain ⟨hst, hdb, heffs, hns⟩ := h
        subst hst hdb heffs hns
        obtain ⟨hnsR, hdbR, hcR, heffsR, hrespR⟩ :=
          runNodes_reply_unsupported hr1 (by simp) (by simpa using hcc)
        subst hnsR heffsR
        exact ⟨rfl, hdbR, hcR, rfl, hrespR⟩)
  · intro o st db hmt
    rcases hmt with hmt | hmt <;> simp [generateUserReply, hmt]

/-- C2: each materializer step advances the cursor by exactly one and
appends exactly one item; a successful CREATE-classified run executes the
materializer exactly once per planned queue entry (the planned queue being
nonempty) and materializes exactly that many items; and any failure makes
the transaction roll back, persisting zero library items and zero chat
rows from the run. -/
theorem C2_materializer_loop :
    (∀ (o : Oracles) (st : PipelineState) (db : LibraryDB)
        (st' : PipelineState) (db' : LibraryDB) (effs : List Effect),
      createOneContent o st db = Except.ok (st', db', effs) →
      st'.currentCreationIndex = st.currentCreationIndex + 1 ∧
      ∃ row, st'.createdContent = st.createdContent ++ [row] ∧
        db'.rows = db.rows ++ [row]) ∧
    (∀ (o : Oracles) (fuel : Nat) (st : PipelineState) (db : LibraryDB)
        (st' : PipelineState) (db' : LibraryDB) (effs : List Effect)
        (ns : List Node),
      runNodes o fuel Node.identifyUserIntent st db =
        Except.ok (st', db', effs, ns) →
      o.intent st = MessageType.CREATE →
      st.createdContent = [] →
      ns.count Node.createOneContent = st'.contentCreationQueue.length ∧
      st'.createdContent.length = st'.contentCreationQueue.length ∧
      1 ≤ st'.contentCreationQueue.length) ∧
    (∀ (o : Oracles) (fuel : Nat) (uid chatSummary : String)
        (msgs : List MessageDto) (userId : Nat) (store : Store) (e : String)
        (store1 : Store),
      requestQuery o fuel uid chatSummary msgs userId store =
        (Except.error e, store1) →
      store1 = store) := by
  refine ⟨?_, ?_, ?_⟩
  · intro o st db st' db' effs h
    obtain ⟨hq, hi, hm, hlt, row, hcreate, hrows, hmem⟩ :=
      createOneContent_ok_fields h
    exact ⟨hi, row, hcreate, hrows⟩
  · intro o fuel st db st' db' effs ns h hint hcc
    exact runNodes_create_run h hint hcc
  · intro o fuel uid chatSummary msgs userId store e store1 h
    exact requestQuery_error_rollback h

/-! ### Witnesses and counterexamples -/

/-- C1 witness: materializing the `-1`-parented NOTE after one folder
attaches it to that folder's id. -/
theorem C1_parent_sentinel_witness :
    createOneContent oBase stStep dbW = Except.ok stepOut ∧
    stStep.contentCreationQueue[stStep.currentCreationIndex]? = some itemNote ∧
    itemNote.parentId = some (-1) ∧
    (∃ row, stepOut.1.createdContent = stStep.createdContent ++ [row] ∧
      Effect.dbInsert row ∈ stepOut.2.2 ∧
      (itemNote.parentId = some (-1) →
        ∃ lastI, stStep.createdContent.getLast? = some lastI ∧
          row.parentId = some (Int.ofNat lastI.id)) ∧
      (itemNote.parentId ≠ some (-1) → row.parentId = itemNote.parentId)) ∧
    (enrichOne oBase stW itemNote).parentId =
      (if itemNote.parentId = some 0 then none else itemNote.parentId) := by
  have hrun : createOneContent oBase stStep dbW = Except.ok stepOut := by rfl
  have hcc : stStep.contentCreationQueue[stStep.currentCreationIndex]? =
      some itemNote := by rfl
  exact ⟨hrun, hcc, rfl,
    C1_parent_sentinel.1 oBase stStep dbW stepOut.1 stepOut.2.1 stepOut.2.2
      itemNote hrun hcc,
    C1_parent_sentinel.2 oBase stW itemNote⟩

/-- C2 witness: on the one-folder CREATE run the materializer runs once,
one item is materialized, and the failing VIDEO request rolls back. -/
theorem C2_materializer_loop_witness :
    runNodes oBase 20 Node.identifyUserIntent stW dbW = Except.ok c2out ∧
    oBase.intent stW = MessageType.CREATE ∧
    stW.createdContent = [] ∧
    c2out.2.2.2.count Node.createOneContent =
      c2out.1.contentCreationQueue.length ∧
    c2out.1.createdContent.length = c2out.1.contentCreationQueue.length ∧
    1 ≤ c2out.1.contentCreationQueue.length ∧
    createOneContent oBase stStep dbW = Except.ok stepOut ∧
    stepOut.1.currentCreationIndex = stStep.currentCreationIndex + 1 ∧
    (∃ row, stepOut.1.createdContent = stStep.createdContent ++ [row] ∧
      stepOut.2.1.rows = dbW.rows ++ [row]) ∧
    (requestQuery oVideo 20 "sess" "" msgsW 7 storeW).2 = storeW := by
  have hrun : runNodes oBase 20 Node.identifyUserIntent stW dbW =
      Except.ok c2out := by rfl
  have hstep : createOneContent oBase stStep dbW = Except.ok stepOut := by rfl
  obtain ⟨hcount, hlen, hpos⟩ := C2_materializer_loop.2.1 oBase 20 stW dbW
    c2out.1 c2out.2.1 c2out.2.2.1 c2out.2.2.2 hrun rfl rfl
  obtain ⟨hadv, happend⟩ := C2_materializer_loop.1 oBase stStep dbW
    stepOut.1 stepOut.2.1 stepOut.2.2 hstep
  have hroll := C2_materializer_loop.2.2 oVideo 20 "sess" "" msgsW 7 storeW
    "Failed to generate response" storeW (by rfl)
  exact ⟨hrun, rfl, rfl, hcount, hlen, hpos, hstep, hadv, happend, by rfl⟩

/-- C3 witness: the VIDEO item fails with the explicit inner message and
the generic wrapped one. -/
theorem C3_video_abort_witness :
    stVid.contentCreationQueue[stVid.currentCreationIndex]? = some itemVid ∧
    itemVid.type = LibraryItemType.VIDEO ∧
    createOneContentBody oBase stVid dbW =
      Except.error "Currently not supported" ∧
    createOneContent oBase stVid dbW =
      Except.error "Failed to create content" ∧
    generateGraphResponses oVideo 20 7 "sess" "" msgsW dbW =
      Except.error "Failed to generate response" ∧
    (requestQuery oVideo 20 "sess" "" msgsW 7 storeW).2 = storeW := by
  obtain ⟨hbody, hwrap⟩ := C3_video_abort.1 oBase stVid dbW itemVid (by rfl) rfl
  have hgen : generateGraphResponses oVideo 20 7 "sess" "" msgsW dbW =
      Except.error "Failed to generate response" := by rfl
  have := C3_video_abort.2.1 oVideo 20 7 "sess" "" msgsW dbW
    "Failed to generate response" hgen
  have hroll := C3_video_abort.2.2 oVideo 20 "sess" "" msgsW 7 storeW
    "Failed to generate response" storeW (by rfl)
  exact ⟨by rfl, rfl, hbody, hwrap, hgen, by rfl⟩

/-- C3 counterexample: on a VIDEO creation request the error surfaced to
the user is the generic `Failed to generate response`, not a fixed friendly
not-supported message (the claim as stated is false). -/
theorem C3_video_claim_counterexample :
    requestQuery oVideo 20 "sess" "" msgsW 7 storeW =
      (Except.error "Failed to generate response", storeW) ∧
    storeW.lib.rows = [] ∧
    "Failed to generate response" ≠ "Currently not supported" ∧
    "Failed to generate response" ≠ fixedUnsupportedMsg := by
  exact ⟨by rfl, rfl, by decide, by decide⟩

/-- C4 witness: the resolved reference `x` corresponds to an active row,
unresolvable references are counted out and produce a warning. -/
theorem C4_reference_resolution_witness :
    stMention.mentionContext = [] ∧
    stMention.sessionContext = [] ∧
    refX ∈ (resolveMentions oMention stMention dbOther).1.mentionContext ∧
    (∃ row ∈ dbOther.rows, row.isActive = true ∧ row.uid = refX.uid ∧
      row.id = refX.id) ∧
    (putInState oMention stMention
      [{ uid := "nope", needContent := false, purpose := "p" }] []).1.length =
      ([({ uid := "nope", needContent := false, purpose := "p" } : RefRequest)].filter
        (fun r => (([] : List LibraryItemR).find?
          (fun d => d.uid == r.uid)).isSome)).length ∧
    Effect.warn ("Content not found for uid: " ++ "nope") ∈
      (putInState oMention stMention
        [{ uid := "nope", needContent := false, purpose := "p" }] []).2 := by
  refine ⟨rfl, rfl, by decide, ?_, ?_, ?_⟩
  · exact C4_reference_resolution.1 oMention stMention dbOther rfl rfl refX
      (Or.inl (by decide))
  · exact C4_reference_resolution.2.1 oMention stMention _ _
  · exact C4_reference_resolution.2.2 oMention stMention _ []
      { uid := "nope", needContent := false, purpose := "p" }
      (by decide) (by rfl)

/-- C4 counterexample: the lookup filters only by `isActive`, so a
reference to an active item owned by a DIFFERENT user still survives into
the resolved mention context — ownership is not checked (the claim as
stated is false). -/
theorem C4_ownership_counterexample :
    (resolveMentions oMention stMention dbOther).1.mentionContext = [refX] ∧
    stMention.userId = 1 ∧
    dbOther.rows.map (fun r => r.uid) = ["x"] ∧
    dbOther.rows.map (fun r => r.userId) = [2] ∧
    (2 : Nat) ≠ 1 := by
  exact ⟨by rfl, rfl, by rfl, by rfl, by decide⟩

/-- C5 witness: a marker-free message short-circuits the resolver. -/
theorem C5_resolver_cheap_path_witness :
    countMention stPlain.userMessage = 0 ∧
    countCreated "hi" = 0 ∧
    resolveMentions oBase stPlain dbW = (stPlain, dbW, []) := by
  exact ⟨by rfl, by rfl,
    C5_resolver_cheap_path oBase stPlain dbW (by rfl) (by decide)⟩

/-- C6 witness: the UPDATE-classified run visits only classification,
reply synthesis and session update, with the fixed message. -/
theorem C6_update_delete_route_witness :
    runNodes oUpd 20 Node.identifyUserIntent stW dbW = Except.ok c6out ∧
    oUpd.intent stW = MessageType.UPDATE ∧
    stW.createdContent = [] ∧
    c6out.2.2.2 = [Node.identifyUserIntent, Node.generateUserReply,
      Node.updateChatSession] ∧
    c6out.2.1 = dbW ∧
    c6out.1.createdContent = [] ∧
    c6out.2.2.1 = [Effect.llmCall, Effect.llmCall] ∧
    c6out.1.response = some (fixedUnsupportedMsg ++ "\n" ++ "") ∧
    (generateUserReply oUpd
      { stW with messageType := MessageType.UPDATE } dbW).1.response =
      some fixedUnsupportedMsg := by
  have hrun : runNodes oUpd 20 Node.identifyUserIntent stW dbW =
      Except.ok c6out := by rfl
  obtain ⟨h1, h2, h3, h4, h5⟩ := C6_update_delete_route.1 oUpd 20 stW dbW
    c6out.1 c6out.2.1 c6out.2.2.1 c6out.2.2.2 hrun (Or.inl rfl) rfl
  exact ⟨hrun, rfl, rfl, h1, h2, h3, h4, h5,
    C6_update_delete_route.2 oUpd _ dbW (Or.inl rfl)⟩

/-- C7 witness: the enriched FOLDER metadata carries color and icon and is
stored unchanged by the materializer. -/
theorem C7_metadata_shapes_witness :
    itemFolder.type = LibraryItemType.FOLDER ∧
    (mdLookup (enrichOne oBase stW
      { itemFolder with metadata := [] }).metadata "color").isSome ∧
    (mdLookup (enrichOne oBase stW
      { itemFolder with metadata := [] }).metadata "icon").isSome ∧
    createOneContent oBase stFolder dbW = Except.ok folderOut ∧
    (∃ row, folderOut.1.createdContent = stFolder.createdContent ++ [row] ∧
      row.metadata = itemFolder.metadata) ∧
    mdLookup (enrichOne oFlash stW
      { itemNote with type := LibraryItemType.FLASHCARD }).metadata "cards" =
      some (JVal.cards (oFlash.enrichFlashcard stW
        { itemNote with type := LibraryItemType.FLASHCARD }).cards) := by
  have hstep : createOneContent oBase stFolder dbW = Except.ok folderOut := by
    rfl
  obtain ⟨hcol, hicon⟩ := C7_metadata_shapes.1 oBase stW
    { itemFolder with metadata := [] } rfl
  exact ⟨rfl, hcol, hicon, hstep,
    C7_metadata_shapes.2.2.1 oBase stFolder dbW folderOut.1 folderOut.2.1
      folderOut.2.2 itemFolder hstep (by rfl) rfl,
    C7_metadata_shapes.2.2.2 oFlash stW
      { itemNote with type := LibraryItemType.FLASHCARD } rfl⟩

/-- C7 counterexample: a full run with a flashcard enrichment returning
eleven cards materializes a FLASHCARD item whose stored `cards` array has
length 11 — outside the claimed 1..10 bound (the claim as stated is
false). -/
theorem C7_flashcard_bound_counterexample :
    flashStore.lib.rows.map (fun r => r.type) = [LibraryItemType.FLASHCARD] ∧
    flashStore.lib.rows.map (fun r => mdLookup r.metadata "cards") =
      [some (JVal.cards
        (List.replicate 11 { question := "q", answer := "a" }))] ∧
    (List.replicate 11 ({ question := "q", answer := "a" } : Card)).length
      = 11 ∧
    ¬ (List.replicate 11
        ({ question := "q", answer := "a" } : Card)).length ≤ 10 := by
  exact ⟨by rfl, by rfl, by rfl, by decide⟩

/-- C8 witness: two-part splits are used verbatim, everything else
defaults, and the parsed pair reaches the image collaborator. -/
theorem C8_image_resolution_witness :
    mdLookupStr [] "resolution" = none ∧
    imageDims [] = ("1024", "1024") ∧
    splitOnX "800x600" = ["800", "600"] ∧
    imageDims [("resolution", JVal.str "800x600")] = ("800", "600") ∧
    (splitOnX "1024").length ≠ 2 ∧
    imageDims [("resolution", JVal.str "1024")] = ("1024", "1024") ∧
    createOneContent oBase stImg dbW = Except.ok imgOut ∧
    itemImg.type = LibraryItemType.IMAGE ∧
    Effect.downloadFile
      (imageUrl (itemImg.content.getD "") (imageDims itemImg.metadata).1
        (imageDims itemImg.metadata).2) itemImg.name "png" ∈ imgOut.2.2 := by
  have hstep : createOneContent oBase stImg dbW = Except.ok imgOut := by rfl
  exact ⟨by rfl,
    C8_image_resolution.1 [] (by rfl),
    by rfl,
    C8_image_resolution.2.1 [("resolution", JVal.str "800x600")] "800x600"
      "800" "600" (by rfl) (by rfl),
    by decide,
    C8_image_resolution.2.2.1 [("resolution", JVal.str "1024")] "1024"
      (by rfl) (by decide),
    hstep, rfl,
    C8_image_resolution.2.2.2 oBase stImg dbW imgOut.1 imgOut.2.1 imgOut.2.2
      itemImg hstep (by rfl) rfl⟩

/-- C8 counterexample: the malformed resolution `axb` (no numeric parts)
splits into two parts and is used verbatim instead of defaulting to
1024x1024 (the claim as stated is false). -/
theorem C8_malformed_resolution_counterexample :
    imageDims [("resolution", JVal.str "axb")] = ("a", "b") ∧
    (("a", "b") : String × String) ≠ ("1024", "1024") ∧
    ("axb").data.all (fun c => c.isDigit) = false ∧
    Effect.downloadFile
      "https://image.pollinations.ai/prompt/pic?width=a&height=b"
      "Pic" "png" ∈ imgOut.2.2 := by
  exact ⟨by rfl, by decide, by rfl, by decide⟩

/-- C9 witness: the NOTE step stores `isEmbedded = true`, the IMAGE step
stores `isEmbedded = false`. -/
theorem C9_isEmbedded_flag_witness :
    createOneContent oBase stStep dbW = Except.ok stepOut ∧
    (∃ row, stepOut.1.createdContent = stStep.createdContent ++ [row] ∧
      row.type = itemNote.type ∧
      ((itemNote.type = LibraryItemType.DOCUMENT ∨
        itemNote.type = LibraryItemType.AUDIO ∨
        itemNote.type = LibraryItemType.VIDEO ∨
        itemNote.type = LibraryItemType.IMAGE) → row.isEmbedded = false) ∧
      ((itemNote.type = LibraryItemType.FOLDER ∨
        itemNote.type = LibraryItemType.NOTE ∨
        itemNote.type = LibraryItemType.FLASHCARD) →
        row.isEmbedded = true)) ∧
    createOneContent oBase stImg dbW = Except.ok imgOut ∧
    (∃ row, imgOut.1.createdContent = stImg.createdContent ++ [row] ∧
      row.type = itemImg.type ∧
      ((itemImg.type = LibraryItemType.DOCUMENT ∨
        itemImg.type = LibraryItemType.AUDIO ∨
        itemImg.type = LibraryItemType.VIDEO ∨
        itemImg.type = LibraryItemType.IMAGE) → row.isEmbedded = false) ∧
      ((itemImg.type = LibraryItemType.FOLDER ∨
        itemImg.type = LibraryItemType.NOTE ∨
        itemImg.type = LibraryItemType.FLASHCARD) →
        row.isEmbedded = true)) := by
  have hstep : createOneContent oBase stStep dbW = Except.ok stepOut := by rfl
  have himg : createOneContent oBase stImg dbW = Except.ok imgOut := by rfl
  exact ⟨hstep,
    C9_isEmbedded_flag oBase stStep dbW stepOut.1 stepOut.2.1 stepOut.2.2
      itemNote hstep (by rfl),
    himg,
    C9_isEmbedded_flag oBase stImg dbW imgOut.1 imgOut.2.1 imgOut.2.2
      itemImg himg (by rfl)⟩

/-- C10 witness: a first queue item carrying `-1` with nothing materialized
yet hits the error branch and fails the request. -/
theorem C10_dash_one_first_item_fails_witness :
    stStepEmpty.contentCreationQueue[stStepEmpty.currentCreationIndex]? =
      some itemNote ∧
    itemNote.parentId = some (-1) ∧
    stStepEmpty.createdContent = [] ∧
    stStepEmpty.createdContent.getLast? = none ∧
    resolveParent stStepEmpty.createdContent itemNote.parentId =
      Except.error "TypeError: cannot read id of undefined" ∧
    createOneContent oBase stStepEmpty dbW =
      Except.error "Failed to create content" := by
  obtain ⟨h1, h2, h3⟩ := C10_dash_one_first_item_fails oBase stStepEmpty dbW
    itemNote (by rfl) rfl rfl
  exact ⟨by rfl, rfl, rfl, h1, h2, h3⟩

end StudyMind
